import Mathlib

/-!
Verification of the holder-indexing subsystem of the Blockchain explorer
repository against its natural-language specification.

The TypeScript sources are shallowly embedded: pure functions become Lean
functions over `Nat` / `Int` / `Rat` (the code uses JavaScript `bigint` and
`number`), the process-global span-hint map becomes explicit state passing,
fallible code returns `Option` / `Except`, and the effectful worker loop is
modelled as a total function over an oracle describing the outcome of each
RPC attempt, together with a trace of the RPC calls it performs.
-/

set_option autoImplicit false

namespace JsModel

/-- The whitespace characters recognised by the model of JavaScript string
trimming: space, tab, line feed, carriage return. -/
def isWsChar (c : Char) : Bool :=
  c.toNat = 32 || c.toNat = 9 || c.toNat = 10 || c.toNat = 13

/-- ASCII decimal digit test, phrased over code points. -/
def isDigitChar (c : Char) : Bool :=
  48 ≤ c.toNat && c.toNat ≤ 57

/-- Numeric value of an ASCII digit character. -/
def digitVal (c : Char) : ℕ := c.toNat - 48

/-- Value of a big-endian list of ASCII decimal digits. -/
def digitsToNat (cs : List Char) : ℕ :=
  cs.foldl (fun a c => a * 10 + digitVal c) 0

/-- Strip leading and trailing whitespace from a character list; model of
the implicit trimming JavaScript performs inside `Number(...)`,
`String.prototype.trim`, and `BigInt(...)`. -/
def trimWs (cs : List Char) : List Char :=
  ((cs.dropWhile isWsChar).reverse.dropWhile isWsChar).reverse

/-- Decimal printer for natural numbers, accumulator form with explicit
fuel (structural recursion, so that concrete values reduce in the
kernel); model of the JavaScript `String(n)` conversion for nonnegative
integers. -/
def natToDecCharsAux : ℕ → ℕ → List Char → List Char
  | 0, _, acc => acc
  | fuel + 1, n, acc =>
    if n = 0 then acc
    else natToDecCharsAux fuel (n / 10) (Nat.digitChar (n % 10) :: acc)

/-- Decimal representation of a natural number as characters (a number
has at most as many digits as its value, so `n` itself is enough fuel). -/
def natToDecChars (n : ℕ) : List Char :=
  if n = 0 then [Nat.digitChar 0] else natToDecCharsAux n n []

/-- Model of JavaScript `String(n)` for a nonnegative integer `n`. -/
def natToString (n : ℕ) : String := ⟨natToDecChars n⟩

/-- Parser for an unsigned JavaScript decimal numeric literal:
`digits [ '.' digits ]` with at least one digit present.  This models the
decimal fragment of the grammar accepted by `Number(...)`; hexadecimal,
octal, binary and exponent forms are omitted because no theorem below
depends on them. `none` models `NaN`. -/
def parseUnsigned (cs : List Char) : Option ℚ :=
  let intPart := cs.takeWhile isDigitChar
  let rest := cs.dropWhile isDigitChar
  match rest with
  | [] => if intPart.isEmpty then none else some ((digitsToNat intPart : ℚ))
  | c :: frac =>
    if c.toNat = 46 then
      if intPart.isEmpty && frac.isEmpty then none
      else if frac.all isDigitChar then
        some ((digitsToNat intPart : ℚ) + (digitsToNat frac : ℚ) / (10 : ℚ) ^ frac.length)
      else none
    else none

/-- Parser for an optionally signed decimal literal (after trimming). -/
def parseSigned (cs : List Char) : Option ℚ :=
  match cs with
  | [] => some 0
  | c :: rest =>
    if c.toNat = 45 then (parseUnsigned rest).map Neg.neg
    else if c.toNat = 43 then parseUnsigned rest
    else parseUnsigned (c :: rest)

/-- Model of the JavaScript `Number(s)` conversion applied to a string:
trim whitespace, empty means `0`, otherwise parse a signed decimal literal;
`none` models `NaN`. -/
def jsStrToNumber (s : String) : Option ℚ :=
  parseSigned (trimWs s.data)

/-- Substring search over character lists (haystack, needle); model of
JavaScript `String.prototype.includes`. -/
def charListContains : List Char → List Char → Bool
  | _, [] => true
  | [], _ :: _ => false
  | c :: rest, p :: ps => (List.isPrefixOf (p :: ps) (c :: rest)) || charListContains rest (p :: ps)

/-- Function `strContains s pat` models `s.includes(pat)`. -/
def strContains (s pat : String) : Bool :=
  charListContains s.data pat.data

/-- ASCII lower-casing of a string; model of `String.prototype.toLowerCase`
for the ASCII texts these functions handle. -/
def lowerAscii (s : String) : String :=
  ⟨s.data.map Char.toLower⟩

/-- Value of a big-endian list of ASCII hexadecimal digits. -/
def hexVal (c : Char) : ℕ :=
  if 48 ≤ c.toNat && c.toNat ≤ 57 then c.toNat - 48
  else if 97 ≤ c.toNat && c.toNat ≤ 102 then c.toNat - 87
  else if 65 ≤ c.toNat && c.toNat ≤ 70 then c.toNat - 55
  else 0

/-- ASCII hexadecimal digit test. -/
def isHexDigitChar (c : Char) : Bool :=
  (48 ≤ c.toNat && c.toNat ≤ 57) || (97 ≤ c.toNat && c.toNat ≤ 102) ||
    (65 ≤ c.toNat && c.toNat ≤ 70)

/-- Value of a hexadecimal digit string. -/
def hexDigitsToNat (cs : List Char) : ℕ :=
  cs.foldl (fun a c => a * 16 + hexVal c) 0

/-- Model of the JavaScript `BigInt(s)` conversion applied to a string:
trim whitespace, empty means `0`, otherwise an optionally signed run of
decimal digits, or a `0x` / `0X` prefixed run of hexadecimal digits
(the `0o` / `0b` prefixes are omitted; no theorem depends on them);
`none` models the thrown `SyntaxError`. -/
def jsBigIntOfString (s : String) : Option ℤ :=
  match trimWs s.data with
  | [] => some 0
  | '-' :: rest =>
    if rest ≠ [] && rest.all isDigitChar then some (-(digitsToNat rest : ℤ)) else none
  | '+' :: rest =>
    if rest ≠ [] && rest.all isDigitChar then some ((digitsToNat rest : ℤ)) else none
  | '0' :: 'x' :: rest =>
    if rest ≠ [] && rest.all isHexDigitChar then some ((hexDigitsToNat rest : ℤ)) else none
  | '0' :: 'X' :: rest =>
    if rest ≠ [] && rest.all isHexDigitChar then some ((hexDigitsToNat rest : ℤ)) else none
  | cs =>
    if cs.all isDigitChar then some ((digitsToNat cs : ℤ)) else none

end JsModel

namespace HoldersIndexer
open JsModel

/-- Constant `MIN_BLOCK_SPAN` from `workers/holdersIndexer.ts` (the spec calls it
`MIN_SPAN`). -/
def MIN_BLOCK_SPAN : ℕ := 100

/-- Constant `MAX_SPAN_RETRIES` from `workers/holdersIndexer.ts`. -/
def MAX_SPAN_RETRIES : ℕ := 4

/-- Constant `INITIAL_LOOKBACK_BLOCKS` from `workers/holdersIndexer.ts`. -/
def INITIAL_LOOKBACK_BLOCKS : ℕ := 50000

/-- The process-global `spanHints : Map<number, bigint>`, embedded as a
function from chain id to the optional remembered span. -/
def SpanHints : Type := ℕ → Option ℕ

/-- Operation `spanHints.set(chainId, v)`. -/
def SpanHints.set (h : SpanHints) (chainId v : ℕ) : SpanHints :=
  fun c => if c = chainId then some v else h c

/-- Function `getInitialSpan(chainId, remaining, maxSpan)`: start from the span hint
(falling back to `maxSpan`), clamp to `maxSpan` and `remaining`, raise to
`MIN_BLOCK_SPAN` when at least that much remains, and never return zero. -/
def getInitialSpan (hints : SpanHints) (chainId remaining maxSpan : ℕ) : ℕ :=
  let span0 := (hints chainId).getD maxSpan
  let span1 := if span0 > maxSpan then maxSpan else span0
  let span2 := if span1 > remaining then remaining else span1
  let span3 :=
    if span2 < MIN_BLOCK_SPAN ∧ MIN_BLOCK_SPAN ≤ remaining then MIN_BLOCK_SPAN else span2
  if span3 < 1 then (if remaining > 0 then remaining else 1) else span3

/-- Function `shrinkSpan(chainId, currentSpan, remaining, maxSpan)`: halve the span,
raise to `MIN_BLOCK_SPAN` when at least that much remains, clamp to
`remaining`, never return zero, clamp to `maxSpan`, and record the result
in the span-hint map.  Returns the new span together with the updated map. -/
def shrinkSpan (hints : SpanHints) (chainId currentSpan remaining maxSpan : ℕ) :
    ℕ × SpanHints :=
  let next0 := currentSpan / 2
  let next1 :=
    if next0 < MIN_BLOCK_SPAN ∧ MIN_BLOCK_SPAN ≤ remaining then MIN_BLOCK_SPAN else next0
  let next2 := if next1 > remaining then remaining else next1
  let next3 := if next2 < 1 then (if remaining > 0 then remaining else 1) else next2
  let next4 := if next3 > maxSpan then maxSpan else next3
  (next4, hints.set chainId next4)

/-- Embedding of a JavaScript error value as the worker's `catch` blocks
observe it: whether it is an `Error` instance, whether it is an
`RpcRateLimitError` instance, its optional numeric `code` property, and
its `message`. -/
structure JsErrorModel where
  isError : Bool
  isRateLimit : Bool
  code : Option ℤ
  message : String
deriving DecidableEq

/-- Function `isBlockRangeTooLargeError(error)` from `workers/holdersIndexer.ts`:
true when the numeric `code` is −32062 or −32602, or when the lower-cased
message contains the substring "-32062", "-32602", "status 413" or
"payload too large". -/
def isBlockRangeTooLargeError (e : JsErrorModel) : Bool :=
  if !e.isError then false
  else if e.code = some (-32062) || e.code = some (-32602) then true
  else
    let m := lowerAscii e.message
    if strContains m ("-32062") || strContains m ("-32602") then true
    else if strContains m ("status 413") || strContains m ("payload too large") then true
    else false

/-- A `TokenCursor` row from `tokenHolderRepository` as the worker reads
it: chain, token address, and the optional `fromBlock` / `toBlock`. -/
structure TokenCursor where
  chainId : ℕ
  token : String
  fromBlock : Option ℕ
  toBlock : Option ℕ

/-- Function `computeStartBlock(cursor, latestBlock)`: `fromBlock` when set,
otherwise `toBlock + 1` when set, otherwise `latestBlock` minus the
initial lookback, clamped at zero.  (The TypeScript signature allows
`null` but every branch returns a value, so the embedding is total.) -/
def computeStartBlock (cursor : TokenCursor) (latestBlock : ℕ) : ℕ :=
  match cursor.fromBlock with
  | some fb => fb
  | none =>
    match cursor.toBlock with
    | some tb => tb + 1
    | none =>
      let lookback := if INITIAL_LOOKBACK_BLOCKS > 0 then INITIAL_LOOKBACK_BLOCKS else 50000
      if latestBlock > lookback then latestBlock - lookback else 0

/-- Outcome of one `rpcClient.getLogs` call inside the retry loop, as an
oracle: either raw logs were returned (abstracted to their count plus the
count of decoded transfers) or an error was thrown. -/
inductive FetchOutcome where
  | success (logsCount transfersCount : ℕ)
  | failure (e : JsErrorModel)

/-- Result of one batch of `processCursor`: the transaction committed
(deltas applied and cursor advanced to `toBlock`, with `fromBlock` set to
`toBlock + 1`), an error was re-thrown, or the retry loop ran out of
attempts (the function's unreachable final `return false`). -/
inductive BatchResult where
  | committed (fromBlock toBlock span : ℕ)
  | raised (e : JsErrorModel)
  | exhausted
deriving DecidableEq

/-- The retry loop of `processCursor` (`for attempt in 0..MAX_SPAN_RETRIES`).
`outcome attempt span` is the oracle for the `getLogs` call of the given
attempt at the given span.  The recursion is on the remaining `fuel` (the
number of loop iterations still allowed), so the loop is total by
construction.  Returns the batch result, the final span-hint map, and the
trace of spans at which `getLogs` was called. -/
def attemptLoopGo (outcome : ℕ → ℕ → FetchOutcome)
    (chainId startBlock remaining maxSpan : ℕ) :
    ℕ → ℕ → ℕ → SpanHints → BatchResult × SpanHints × List ℕ
  | 0, _, _, hints => (.exhausted, hints, [])
  | fuel + 1, attempt, span, hints =>
    match outcome attempt span with
    | .success _ _ =>
      (.committed startBlock (startBlock + span - 1) span, hints.set chainId span, [span])
    | .failure e =>
      if e.isRateLimit then (.raised e, hints, [span])
      else if !isBlockRangeTooLargeError e then (.raised e, hints, [span])
      else
        let shrunk := shrinkSpan hints chainId span remaining maxSpan
        if shrunk.1 = span ∨ attempt = MAX_SPAN_RETRIES - 1 then (.raised e, shrunk.2, [span])
        else
          let r := attemptLoopGo outcome chainId startBlock remaining maxSpan
            fuel (attempt + 1) shrunk.1 shrunk.2
          (r.1, r.2.1, span :: r.2.2)

/-- Overall result of `processCursor`: either there was nothing to do (the
function returned `false` before issuing any `getLogs` call or database
write) or the retry loop ran. -/
inductive ProcessResult where
  | noWork
  | batch (r : BatchResult)
deriving DecidableEq

/-- Function `processCursor` after the `getBlockNumber` call (the chain tip
`latestBlock` is passed in): compute the start block, return `noWork`
when the start exceeds the tip, otherwise run the retry loop starting
from `getInitialSpan`.  The returned trace lists the spans of the
`getLogs` calls performed; a committed batch is the only database
mutation. -/
def processCursorModel (cursor : TokenCursor) (latestBlock : ℕ)
    (outcome : ℕ → ℕ → FetchOutcome) (hints : SpanHints) (maxSpan : ℕ) :
    ProcessResult × SpanHints × List ℕ :=
  let startBlock := computeStartBlock cursor latestBlock
  if latestBlock < startBlock then (.noWork, hints, [])
  else
    let remaining := latestBlock - startBlock + 1
    if remaining = 0 then (.noWork, hints, [])
    else
      let span := getInitialSpan hints cursor.chainId remaining maxSpan
      let r := attemptLoopGo outcome cursor.chainId startBlock remaining maxSpan
        MAX_SPAN_RETRIES 0 span hints
      (.batch r.1, r.2.1, r.2.2)

end HoldersIndexer

namespace HoldersIndexer

/-- The shrink formula exactly as the claim states it: the value
`max(1, min(maxSpan, min(remaining, current/2)))`, floored to the smaller
of `MIN_SPAN` and `remaining`.  (Refinement definition following the
claim's words, to be compared with `shrinkSpan` from the source.) -/
def specShrinkFormula (currentSpan remaining maxSpan : ℕ) : ℕ :=
  max (min MIN_BLOCK_SPAN remaining)
    (max 1 (min maxSpan (min remaining (currentSpan / 2))))

/-- The claim's start-block formula:
`cursor.fromBlock ?? cursor.toBlock+1 ?? (tip − INITIAL_LOOKBACK)` with the
subtraction clamped at zero (truncated ℕ subtraction).  (Refinement
definition following the claim's words, to be compared with
`computeStartBlock` from the source.) -/
def claimStartBlock (cursor : TokenCursor) (tip : ℕ) : ℕ :=
  match cursor.fromBlock, cursor.toBlock with
  | some fb, _ => fb
  | none, some tb => tb + 1
  | none, none => tip - INITIAL_LOOKBACK_BLOCKS

/-- The block-range classifier exactly as the claim states it: JSON-RPC
code −32062 or −32602, or the (lower-cased) message contains "range",
"too large", or those numeric codes as substrings.  (The claim also names
an HTTP payload status of 413; the code's classifier sees only the thrown
error, in whose message a 413 transport failure appears as the text
"status 413".)  Refinement definition following the claim's words, to be
compared with `isBlockRangeTooLargeError` from the source. -/
def claimBlockRangeClassifier (e : JsErrorModel) : Bool :=
  decide (e.code = some (-32062)) || decide (e.code = some (-32602)) ||
    JsModel.strContains (JsModel.lowerAscii e.message) ("range") ||
    JsModel.strContains (JsModel.lowerAscii e.message) ("too large") ||
    JsModel.strContains (JsModel.lowerAscii e.message) ("-32062") ||
    JsModel.strContains (JsModel.lowerAscii e.message) ("-32602")

end HoldersIndexer

namespace RpcClient

/-- The `Retry-After` response header as `parseRetryAfter` discriminates
it: absent, a finite numeric value (seconds, possibly fractional), a
parsable HTTP-date (as epoch milliseconds, the result of `Date.parse`),
or an unparsable string. -/
inductive RetryAfterHeader where
  | absent
  | numeric (seconds : ℚ)
  | httpDate (epochMs : ℤ)
  | invalid
deriving DecidableEq

/-- Function `parseRetryAfter(raw)` from `lib/rpcClient.ts`, with the current
wall-clock time (`Date.now()`, epoch milliseconds) passed explicitly:
absent or unparsable gives 1000 ms; a numeric value gives
`max(1000, ceil(seconds * 1000))`; an HTTP-date gives the positive delta
to now, or 1000 ms when the delta is not positive. -/
def parseRetryAfter (h : RetryAfterHeader) (now : ℤ) : ℤ :=
  match h with
  | .absent => 1000
  | .numeric seconds => max 1000 ⌈seconds * 1000⌉
  | .httpDate t => if t - now > 0 then t - now else 1000
  | .invalid => 1000

/-- Function `inferRetryAfterFromCode(code)` from `lib/rpcClient.ts`: 2000 ms for
the JSON-RPC throttling codes −32005 and −32016, otherwise 0. -/
def inferRetryAfterFromCode (code : ℤ) : ℤ :=
  if code = -32005 ∨ code = -32016 then 2000 else 0

/-- The JSON body of a JSON-RPC response as `RpcClient.call` inspects it:
either a success payload or an error object with `code` and `message`. -/
inductive JsonRpcPayload where
  | success
  | failure (code : ℤ) (message : String)
deriving DecidableEq

/-- Classification of one `RpcClient.call`: success, a rate-limit error
carrying `retryAfterMs`, a transport error, or a plain JSON-RPC error. -/
inductive CallOutcome where
  | ok
  | rateLimited (retryAfterMs : ℤ) (message : String)
  | transport (message : String)
  | rpcError (code : ℤ) (message : String)
deriving DecidableEq

/-- Function `RpcClient.call` from `lib/rpcClient.ts`, embedded over the observed
HTTP response (status, retry-after header, JSON payload): HTTP 429/503
throw `RpcRateLimitError(parseRetryAfter(header))`; any other non-2xx
status throws a transport error; a JSON-RPC error object throws
`RpcRateLimitError` when `inferRetryAfterFromCode` is positive and a
plain error otherwise. -/
def call (status : ℕ) (header : RetryAfterHeader) (payload : JsonRpcPayload)
    (now : ℤ) (method : String) : CallOutcome :=
  if status = 429 ∨ status = 503 then
    .rateLimited (parseRetryAfter header now) (("RPC ") ++ method ++ (" rate limited"))
  else if ¬ (200 ≤ status ∧ status ≤ 299) then
    .transport (("RPC request failed with status ") ++ JsModel.natToString status)
  else
    match payload with
    | .success => .ok
    | .failure code message =>
      if inferRetryAfterFromCode code > 0 then
        .rateLimited (inferRetryAfterFromCode code) message
      else
        .rpcError code message

end RpcClient

namespace TokenService
open JsModel

/-- Function `clampLimit(raw?)` from `services/tokenService.ts`: 25 when the
argument is absent or not a finite number (`none` here), otherwise the
floor clamped into `[1, 100]`. -/
def clampLimit (raw : Option ℚ) : ℕ :=
  match raw with
  | none => 25
  | some q =>
    let value := ⌊q⌋
    if value < 1 then 1
    else if value > 100 then 100
    else value.toNat

/-- Function `parseCursor(raw?)` from `services/tokenService.ts`: the cursor is a
PAGE NUMBER — absent, empty or unparsable strings and values below 1 give
page 1, otherwise the floor of the parsed number. -/
def parseCursor (raw : Option String) : ℕ :=
  match raw with
  | none => 1
  | some s =>
    if s = ("") then 1
    else
      match jsStrToNumber s with
      | none => 1
      | some q => if q < 1 then 1 else (⌊q⌋).toNat

/-- One Etherscan token-holder DTO: address, quantity, and the optional
rank / percentage strings. -/
structure EtherscanTokenHolderDto where
  TokenHolderAddress : String
  TokenHolderQuantity : String
  TokenHolderRank : Option String
  TokenHolderPercentage : Option String
deriving DecidableEq

/-- One row of the holders response: rank, holder address, balance string
and percentage (JS numbers embedded as ℚ). -/
structure TokenHolder where
  rank : ℚ
  holder : String
  balance : String
  pct : ℚ
deriving DecidableEq

/-- The holders response: items plus the optional `nextCursor`. -/
structure TokenHoldersResponse where
  items : List TokenHolder
  nextCursor : Option String
deriving DecidableEq

/-- A numeric DTO field with truthiness and finiteness fallback:
`field ? Number(field) : fallback`, then the finiteness check. -/
def holderNumField (field : Option String) (fallback : ℚ) : ℚ :=
  match field with
  | none => fallback
  | some s =>
    if s = ("") then fallback
    else
      match jsStrToNumber s with
      | none => fallback
      | some q => q

/-- The `dtoList.map((dto, index) => ...)` body of
`normalizeEtherscanPayload`, with the running index made explicit. -/
def buildItems (baseRank : ℤ) : ℕ → List EtherscanTokenHolderDto → List TokenHolder
  | _, [] => []
  | index, dto :: rest =>
    { rank := holderNumField dto.TokenHolderRank ((baseRank + index + 1 : ℤ) : ℚ),
      holder := dto.TokenHolderAddress,
      balance := dto.TokenHolderQuantity,
      pct := holderNumField dto.TokenHolderPercentage 0 } ::
      buildItems baseRank (index + 1) rest

/-- Function `normalizeEtherscanPayload(dtoList, page, limit)` from
`services/tokenService.ts`: empty or absent DTO lists give no items and
no cursor; otherwise ranks default to `(page−1)·limit + index + 1` and
`nextCursor` is the decimal string `page + 1` exactly when the item count
equals `limit`. -/
def normalizeEtherscanPayload (dtoList : Option (List EtherscanTokenHolderDto))
    (page limit : ℕ) : TokenHoldersResponse :=
  match dtoList with
  | none => ⟨[], none⟩
  | some l =>
    if l.length = 0 then ⟨[], none⟩
    else
      let baseRank : ℤ := ((page : ℤ) - 1) * (limit : ℤ)
      let items := buildItems baseRank 0 l
      ⟨items, if items.length = limit then some (natToString (page + 1)) else none⟩

/-- The `result` field of the Etherscan response body: an array of DTOs,
a string, or absent. -/
inductive ResultField where
  | arr (l : List EtherscanTokenHolderDto)
  | strRes (s : String)
  | absent
deriving DecidableEq

/-- The Etherscan response body as `requestEtherscanTokenHolders` reads
it. -/
structure VendorBody where
  status : String
  message : Option String
  result : ResultField
deriving DecidableEq

/-- Failure kinds of `getTokenHolders`: `UnsupportedChainError` or a
thrown vendor error. -/
inductive GetHoldersErr where
  | unsupportedChain
  | vendorError (message : String)
deriving DecidableEq

/-- Expression `body.message?.toLowerCase().includes("no tokens found")` with the
optional chain short-circuiting to false. -/
def messageIncludesNoTokens (m : Option String) : Bool :=
  match m with
  | none => false
  | some s => strContains (lowerAscii s) ("no tokens found")

/-- Function `requestEtherscanTokenHolders` from `services/tokenService.ts`, after
the HTTP fetch (the parsed body is passed in): a non-"1" status whose
message says no tokens gives an empty page; a non-array `result` gives an
empty page when it reads "no records" and throws otherwise; an array is
normalised. -/
def requestEtherscanTokenHolders (body : VendorBody) (page limit : ℕ) :
    Except GetHoldersErr TokenHoldersResponse :=
  if body.status ≠ ("1") ∧ messageIncludesNoTokens body.message = true then
    .ok ⟨[], none⟩
  else
    match body.result with
    | .arr l => .ok (normalizeEtherscanPayload (some l) page limit)
    | .strRes s =>
      if strContains (lowerAscii s) ("no records") then .ok ⟨[], none⟩
      else .error (.vendorError (("Unexpected vendor payload: ") ++
        (body.message.getD ("unknown error"))))
    | .absent =>
      .error (.vendorError (("Unexpected vendor payload: ") ++
        (body.message.getD ("unknown error"))))

/-- A chain adapter as `getTokenHolders` consults it. -/
structure Adapter where
  supported : Bool
deriving DecidableEq

/-- Function `getTokenHolders({chainId, address, cursor, limit})` from
`services/tokenService.ts`, embedded without the Redis cache (with
`REDIS_URL` unset the client is null and both cache branches are skipped)
and with the vendor HTTP exchange abstracted to its parsed `body`; the
adapter lookup result is passed in.  Address normalisation (trim +
lower-case) only affects the outgoing query string, not the shape of the
response. -/
def getTokenHolders (adapter : Option Adapter) (cursor : Option String)
    (limit : Option ℚ) (body : VendorBody) :
    Except GetHoldersErr TokenHoldersResponse :=
  match adapter with
  | none => .error .unsupportedChain
  | some a =>
    if !a.supported then .error .unsupportedChain
    else
      requestEtherscanTokenHolders body (parseCursor cursor) (clampLimit limit)

/-- The canonical holder-cursor encoding named by the spec:
`"<balance_decimal>:<holder_lowerhex>"`.  (Refinement definition
following the spec's words; no such encoder exists in the source, whose
cursors are page numbers.) -/
def encodeHolderCursor (balance : ℕ) (holder : String) : String :=
  natToString balance ++ (":") ++ holder

end TokenService

namespace TokenRouter
open JsModel

/-- Constant `DEFAULT_LIMIT` from the token router. -/
def DEFAULT_LIMIT : ℕ := 25

/-- Constant `MAX_LIMIT` from the token router. -/
def MAX_LIMIT : ℕ := 100

/-- Function `parseLimit(raw?)` from the token router: absent, empty or unparsable
gives 25; otherwise the floor clamped into `[1, 100]`. -/
def parseLimit (raw : Option String) : ℕ :=
  match raw with
  | none => DEFAULT_LIMIT
  | some s =>
    if s = ("") then DEFAULT_LIMIT
    else
      match jsStrToNumber s with
      | none => DEFAULT_LIMIT
      | some q =>
        if ⌊q⌋ < 1 then 1
        else if ⌊q⌋ > (MAX_LIMIT : ℤ) then MAX_LIMIT
        else (⌊q⌋).toNat

/-- Function `sanitizeCursor(raw?)` from the token router: absent, empty,
unparsable or negative cursors become null; otherwise the floor printed
back as a decimal string — the cursor is a page number. -/
def sanitizeCursor (raw : Option String) : Option String :=
  match raw with
  | none => none
  | some s =>
    if s = ("") then none
    else
      match jsStrToNumber s with
      | none => none
      | some q => if q < 0 then none else some (natToString ((⌊q⌋).toNat))

/-- A row of the chains catalogue as `getChainById` returns it. -/
structure Chain where
  id : ℚ
  supported : Bool
deriving DecidableEq

/-- The outcome of awaiting `getTokenHolders` inside the route handler:
a response, an `UnsupportedChainError`, an `EtherscanUpstreamError`
(carrying the vendor status and message the handler echoes), or any other
thrown error. -/
inductive ReadOutcome where
  | ok (resp : TokenService.TokenHoldersResponse)
  | unsupported
  | upstream (vendorStatus vendorMessage : Option String)
  | other
deriving DecidableEq

/-- The HTTP response of `GET /token/:address/holders`: a 400 with an
error code, a 200 with items and optional cursor, or a 502
`upstream_error` with vendor details. -/
inductive ReadResponse where
  | badRequest (error : String)
  | okJson (items : List TokenService.TokenHolder) (nextCursor : Option String)
  | badGateway (error vendor : String) (status message : Option String)
deriving DecidableEq

/-- The `GET /:address/holders` handler from the token router
(`createTokenRouter`): chain validation (missing / invalid / unsupported),
then the service call (its outcome passed as an oracle — the parsed
`limit` and `cursor` feed that call and do not otherwise affect the
response shape), with `UnsupportedChainError` as 400 and every other
thrown error as a 502 `upstream_error`.  A truthiness check drops an
empty-string `nextCursor` from the payload. -/
def handler (getChain : ℚ → Option Chain) (chainIdParam : Option String)
    (outcome : ReadOutcome) : ReadResponse :=
  match chainIdParam with
  | none => .badRequest ("missing_chain")
  | some cv =>
    if cv = ("") then .badRequest ("missing_chain")
    else
      match jsStrToNumber cv with
      | none => .badRequest ("invalid_chain")
      | some q =>
        match getChain q with
        | none => .badRequest ("unsupported_chain")
        | some chain =>
          if !chain.supported then .badRequest ("unsupported_chain")
          else
            match outcome with
            | .ok resp =>
              .okJson resp.items
                (match resp.nextCursor with
                 | some s => if s = ("") then none else some s
                 | none => none)
            | .unsupported => .badRequest ("unsupported_chain")
            | .upstream vs vm => .badGateway ("upstream_error") ("etherscan") vs vm
            | .other => .badGateway ("upstream_error") ("unknown") none none

/-- The read surface the claim allows: validation errors, the
unsupported-chain error, or a success payload.  (Refinement predicate
following the claim's words, to be compared with `handler`.) -/
def claimReadSurface (r : ReadResponse) : Prop :=
  r = .badRequest ("missing_chain") ∨ r = .badRequest ("invalid_chain") ∨
    r = .badRequest ("unsupported_chain") ∨ ∃ items nc, r = .okJson items nc

end TokenRouter

namespace TokenService

/-- A concrete two-row vendor body used to exercise the pagination. -/
def sampleBody : VendorBody :=
  ⟨("1"), some ("OK"),
    .arr [⟨("0xaaaa"), ("1000"), none, none⟩, ⟨("0xbbbb"), ("400"), none, none⟩]⟩

end TokenService

namespace TokenRouter

/-- A one-chain catalogue: chain 137 supported, everything else unknown. -/
def sampleChains : ℚ → Option Chain :=
  fun q => if q = 137 then some ⟨137, true⟩ else none

end TokenRouter

namespace AdminRouter
open JsModel

/-- Modelled from the spec: `normalizeAddress` from
`services/holderStore.ts`, a file absent from the sources (only its
callers are present).  Per the spec, a token address must be 20-byte hex
— leading `0x`, 40 hex characters, case-insensitive — normalised to
lower-hex; anything else throws (`none` here). -/
def normalizeAddress (s : String) : Option String :=
  match s.data with
  | '0' :: 'x' :: rest =>
    if rest.length = 40 && rest.all isHexDigitChar then
      some ⟨'0' :: 'x' :: rest.map Char.toLower⟩
    else none
  | _ => none

/-- The request body's `chainId` field as `Number.isFinite` discriminates
it: a finite JS number (embedded as ℚ) or anything else (strings
included — `Number.isFinite` does not coerce). -/
inductive ChainIdField where
  | num (q : ℚ)
  | notNumber
deriving DecidableEq

/-- The request body's `token` field: a string or anything else. -/
inductive TokenField where
  | str (s : String)
  | notString
deriving DecidableEq

/-- The request body's `fromBlock` field: absent, null, a string, an
integral JS number, or a non-integral finite JS number (on which
`BigInt(...)` throws a `RangeError`). -/
inductive FromBlockField where
  | absent
  | nullVal
  | str (s : String)
  | intNum (i : ℤ)
  | nonIntNum
deriving DecidableEq

/-- The emptiness test `` `${fromBlock}`.trim().length > 0 `` negated:
only a whitespace-only string stringifies to a blank. -/
def fromBlockIsBlank : FromBlockField → Bool
  | .str s => decide (trimWs s.data = [])
  | _ => false

/-- Function `BigInt(fromBlock)` on the original field value: identity on
integral numbers, the string grammar on strings, a throw on
non-integral numbers. -/
def jsBigIntOfField : FromBlockField → Option ℤ
  | .str s => jsBigIntOfString s
  | .intNum i => some i
  | _ => none

/-- A chain adapter as `getChainAdapter` returns it. -/
structure Adapter where
  supported : Bool
deriving DecidableEq

/-- The response of `POST /admin/reindex`: one of the four 400 validation
errors, or 202 Accepted; `accepted` carries the arguments passed to
`enqueueReindex` (the 500 path for a database failure inside the enqueue
is outside this embedding). -/
inductive AdminResponse where
  | invalidChain
  | unsupportedChain
  | invalidToken
  | invalidFromBlock
  | accepted (chainId : ℚ) (token : String) (fromBlock : Option ℤ)
deriving DecidableEq

/-- The `POST /reindex` handler from `routes/api/admin.ts`
(`createAdminRouter`), with the adapter catalogue injected:
non-finite `chainId` → `invalid_chain`; unknown or unsupported chain →
`unsupported_chain`; non-string or empty or non-normalisable token →
`invalid_token`; a present, non-blank `fromBlock` that `BigInt` rejects
or that is negative → `invalid_from_block`; otherwise `enqueueReindex`
is invoked and the request is accepted with 202. -/
def adminReindex (adapters : ℚ → Option Adapter) (chainId : ChainIdField)
    (token : TokenField) (fromBlock : FromBlockField) : AdminResponse :=
  match chainId with
  | .notNumber => .invalidChain
  | .num q =>
    match adapters q with
    | none => .unsupportedChain
    | some adapter =>
      if !adapter.supported then .unsupportedChain
      else
        match token with
        | .notString => .invalidToken
        | .str s =>
          if s = ("") then .invalidToken
          else
            match normalizeAddress s with
            | none => .invalidToken
            | some normalizedToken =>
              match fromBlock with
              | .absent => .accepted q normalizedToken none
              | .nullVal => .accepted q normalizedToken none
              | v =>
                if fromBlockIsBlank v then .accepted q normalizedToken none
                else
                  match jsBigIntOfField v with
                  | none => .invalidFromBlock
                  | some i =>
                    if i < 0 then .invalidFromBlock
                    else .accepted q normalizedToken (some i)

/-- The claim's `fromBlock` validity: absent, or a non-negative DECIMAL
integer.  (Refinement definition following the claim's words, to be
compared with the `BigInt`-based acceptance in `adminReindex`.) -/
def claimDecimalFromBlock : FromBlockField → Bool
  | .absent => true
  | .nullVal => true
  | .str s => decide (s.data ≠ []) && s.data.all isDigitChar
  | .intNum i => decide (0 ≤ i)
  | .nonIntNum => false

/-- A one-chain adapter catalogue: chain 137 supported. -/
def sampleAdapters : ℚ → Option Adapter :=
  fun q => if q = 137 then some ⟨true⟩ else none

end AdminRouter

namespace JsModel

theorem digitChar_isDigit {m : ℕ} (h : m < 10) : isDigitChar (Nat.digitChar m) = true := by
  interval_cases m <;> decide

theorem digitVal_digitChar {m : ℕ} (h : m < 10) : digitVal (Nat.digitChar m) = m := by
  interval_cases m <;> decide

theorem digitsToNat_cons (c : Char) (cs : List Char) (a : ℕ) :
    List.foldl (fun a c => a * 10 + digitVal c) a (c :: cs) =
      List.foldl (fun a c => a * 10 + digitVal c) (a * 10 + digitVal c) cs := rfl

theorem foldl_digits_shift (cs : List Char) :
    ∀ a : ℕ, List.foldl (fun a c => a * 10 + digitVal c) a cs =
      a * 10 ^ cs.length + digitsToNat cs := by
  induction cs with
  | nil => intro a; simp [digitsToNat]
  | cons c cs ih =>
    intro a
    have h1 := ih (a * 10 + digitVal c)
    have h2 := ih (digitVal c)
    have hx : digitsToNat (c :: cs) = digitVal c * 10 ^ cs.length + digitsToNat cs := by
      have : digitsToNat (c :: cs) =
          List.foldl (fun a c => a * 10 + digitVal c) (0 * 10 + digitVal c) cs := rfl
      rw [this]
      simpa using h2
    rw [digitsToNat_cons, h1, hx]
    simp only [List.length_cons, pow_succ]
    ring

theorem natToDecCharsAux_spec :
    ∀ fuel n acc, n ≤ fuel →
      digitsToNat (natToDecCharsAux fuel n acc) = n * 10 ^ acc.length + digitsToNat acc := by
  intro fuel
  induction fuel with
  | zero =>
    intro n acc hn
    have h0 : n = 0 := by omega
    subst h0
    simp [natToDecCharsAux]
  | succ fuel ih =>
    intro n acc hn
    by_cases h0 : n = 0
    · subst h0
      simp [natToDecCharsAux]
    · rw [natToDecCharsAux, if_neg h0]
      have hfuel : n / 10 ≤ fuel := by omega
      rw [ih _ _ hfuel]
      have hv : digitVal (Nat.digitChar (n % 10)) = n % 10 :=
        digitVal_digitChar (Nat.mod_lt _ (by omega))
      have hc : digitsToNat (Nat.digitChar (n % 10) :: acc) =
          digitVal (Nat.digitChar (n % 10)) * 10 ^ acc.length + digitsToNat acc := by
        have : digitsToNat (Nat.digitChar (n % 10) :: acc) =
            List.foldl (fun a c => a * 10 + digitVal c)
              (0 * 10 + digitVal (Nat.digitChar (n % 10))) acc := rfl
        rw [this]
        simpa using foldl_digits_shift acc (digitVal (Nat.digitChar (n % 10)))
      rw [hc, hv]
      have hdm : 10 * (n / 10) + n % 10 = n := Nat.div_add_mod n 10
      calc n / 10 * 10 ^ (Nat.digitChar (n % 10) :: acc).length +
            (n % 10 * 10 ^ acc.length + digitsToNat acc)
          = (10 * (n / 10) + n % 10) * 10 ^ acc.length + digitsToNat acc := by
            simp only [List.length_cons, pow_succ]; ring
        _ = n * 10 ^ acc.length + digitsToNat acc := by rw [hdm]

theorem natToDecCharsAux_digits :
    ∀ fuel n acc, (∀ c ∈ acc, isDigitChar c = true) →
      ∀ c ∈ natToDecCharsAux fuel n acc, isDigitChar c = true := by
  intro fuel
  induction fuel with
  | zero => intro n acc hacc; simpa [natToDecCharsAux] using hacc
  | succ fuel ih =>
    intro n acc hacc
    by_cases h0 : n = 0
    · subst h0
      simpa [natToDecCharsAux] using hacc
    · rw [natToDecCharsAux, if_neg h0]
      refine ih _ _ ?_
      intro c hc
      rw [List.mem_cons] at hc
      rcases hc with rfl | hc
      · exact digitChar_isDigit (Nat.mod_lt _ (by omega))
      · exact hacc c hc

theorem natToDecCharsAux_ne_nil :
    ∀ fuel n (acc : List Char), acc ≠ [] ∨ (n ≠ 0 ∧ 1 ≤ fuel) →
      natToDecCharsAux fuel n acc ≠ [] := by
  intro fuel
  induction fuel with
  | zero =>
    intro n acc h
    rcases h with h | h
    · exact h
    · omega
  | succ fuel ih =>
    intro n acc h
    by_cases h0 : n = 0
    · subst h0
      rw [natToDecCharsAux, if_pos rfl]
      rcases h with h | h
      · exact h
      · exact absurd rfl h.1
    · rw [natToDecCharsAux, if_neg h0]
      exact ih _ _ (Or.inl (by simp))

theorem natToDecChars_digits (n : ℕ) :
    ∀ c ∈ natToDecChars n, isDigitChar c = true := by
  unfold natToDecChars
  split
  · intro c hc
    simp only [List.mem_singleton] at hc
    subst hc
    decide
  · exact natToDecCharsAux_digits n n [] (by simp)

theorem natToDecChars_ne_nil (n : ℕ) : natToDecChars n ≠ [] := by
  unfold natToDecChars
  split
  · simp
  · refine natToDecCharsAux_ne_nil n n [] (Or.inr ⟨by assumption, ?_⟩)
    omega

theorem digitsToNat_natToDecChars (n : ℕ) : digitsToNat (natToDecChars n) = n := by
  unfold natToDecChars
  split
  · subst n; decide
  · have := natToDecCharsAux_spec n n [] (Nat.le_refl n)
    simpa [digitsToNat] using this

theorem takeWhile_of_all {p : Char → Bool} :
    ∀ l : List Char, (∀ c ∈ l, p c = true) → l.takeWhile p = l := by
  intro l h
  induction l with
  | nil => rfl
  | cons c cs ih =>
    rw [List.takeWhile_cons]
    rw [h c (by simp)]
    simp only [ite_true]
    rw [ih (fun x hx => h x (by simp [hx]))]

theorem dropWhile_of_all {p : Char → Bool} :
    ∀ l : List Char, (∀ c ∈ l, p c = true) → l.dropWhile p = [] := by
  intro l h
  induction l with
  | nil => rfl
  | cons c cs ih =>
    rw [List.dropWhile_cons]
    rw [h c (by simp)]
    simp only [ite_true]
    exact ih (fun x hx => h x (by simp [hx]))

theorem digit_not_ws {c : Char} (h : isDigitChar c = true) : isWsChar c = false := by
  unfold isDigitChar at h
  unfold isWsChar
  simp only [Bool.or_eq_false_iff, decide_eq_false_iff_not]
  simp only [Bool.and_eq_true, decide_eq_true_eq] at h
  omega

theorem trimWs_of_all_digits (l : List Char) (h : ∀ c ∈ l, isDigitChar c = true) :
    trimWs l = l := by
  unfold trimWs
  have h1 : l.dropWhile isWsChar = l := by
    cases l with
    | nil => rfl
    | cons c cs =>
      rw [List.dropWhile_cons, digit_not_ws (h c (by simp))]
      simp
  rw [h1]
  have h2 : l.reverse.dropWhile isWsChar = l.reverse := by
    cases hr : l.reverse with
    | nil => rfl
    | cons c cs =>
      have hcmem : c ∈ l := by
        have : c ∈ l.reverse := by rw [hr]; simp
        simpa using this
      rw [List.dropWhile_cons, digit_not_ws (h c hcmem)]
      simp
  rw [h2, List.reverse_reverse]

theorem parseUnsigned_all_digits (l : List Char) (hne : l ≠ [])
    (h : ∀ c ∈ l, isDigitChar c = true) :
    parseUnsigned l = some ((digitsToNat l : ℚ)) := by
  unfold parseUnsigned
  rw [takeWhile_of_all l h, dropWhile_of_all l h]
  simp [List.isEmpty_iff, hne]

theorem jsStrToNumber_natToString (n : ℕ) :
    jsStrToNumber (natToString n) = some ((n : ℚ)) := by
  unfold jsStrToNumber natToString
  have hdig := natToDecChars_digits n
  have hne := natToDecChars_ne_nil n
  have hdata : (String.mk (natToDecChars n)).data = natToDecChars n := rfl
  rw [hdata, trimWs_of_all_digits _ hdig]
  cases hl : natToDecChars n with
  | nil => exact absurd hl hne
  | cons c cs =>
    have hcd : isDigitChar c = true := hdig c (by rw [hl]; simp)
    have hc45 : ¬ c.toNat = 45 := by
      unfold isDigitChar at hcd
      simp only [Bool.and_eq_true, decide_eq_true_eq] at hcd
      omega
    have hc43 : ¬ c.toNat = 43 := by
      unfold isDigitChar at hcd
      simp only [Bool.and_eq_true, decide_eq_true_eq] at hcd
      omega
    have hps : parseSigned (c :: cs) =
        (if c.toNat = 45 then (parseUnsigned cs).map Neg.neg
         else if c.toNat = 43 then parseUnsigned cs
         else parseUnsigned (c :: cs)) := rfl
    rw [hps, if_neg hc45, if_neg hc43]
    rw [parseUnsigned_all_digits (c :: cs) (by simp)
      (fun x hx => hdig x (by rw [hl]; exact hx))]
    rw [← hl, digitsToNat_natToDecChars]

end JsModel

namespace HoldersIndexer

theorem shrinkSpan_fst_hints_indep (h1 h2 : SpanHints) (chainId c r m : ℕ) :
    (shrinkSpan h1 chainId c r m).1 = (shrinkSpan h2 chainId c r m).1 := rfl

theorem shrinkSpan_snd (hints : SpanHints) (chainId c r m : ℕ) :
    (shrinkSpan hints chainId c r m).2 =
      SpanHints.set hints chainId (shrinkSpan hints chainId c r m).1 := rfl

theorem shrinkSpan_pos (hints : SpanHints) (chainId c r m : ℕ) (hr : 1 ≤ r) (hm : 1 ≤ m) :
    1 ≤ (shrinkSpan hints chainId c r m).1 := by
  simp only [shrinkSpan, MIN_BLOCK_SPAN]
  split_ifs <;> omega

theorem getInitialSpan_pos (hints : SpanHints) (chainId r m : ℕ) (hr : 1 ≤ r) (hm : 1 ≤ m) :
    1 ≤ getInitialSpan hints chainId r m := by
  simp only [getInitialSpan, MIN_BLOCK_SPAN]
  split_ifs <;> omega

end HoldersIndexer

/-- Claim C4, counterexample. At `current = 10`, `remaining = 50`,
`maxSpan = 2000` the code's `shrinkSpan` returns `10 / 2 = 5`, while the
claim's formula — floored to the smaller of `MIN_SPAN = 100` and
`remaining = 50` — demands `50`; in particular the result is NOT floored
to `min(MIN_SPAN, remaining)`. -/
theorem claimC4_counterexample :
    (HoldersIndexer.shrinkSpan (fun _ => none) 137 10 50 2000).1 = 5 ∧
    HoldersIndexer.specShrinkFormula 10 50 2000 = 50 ∧
    ¬ min HoldersIndexer.MIN_BLOCK_SPAN 50 ≤
      (HoldersIndexer.shrinkSpan (fun _ => none) 137 10 50 2000).1 := by
  refine ⟨rfl, rfl, ?_⟩
  decide

/-- Claim C4, amended. For `current ≥ 1`, `remaining ≥ 1`, `maxSpan ≥ 1`,
`Shrink(chainId, current, remaining)` returns
`min(maxSpan, min(remaining, s))` where `s = max(current/2, MIN_SPAN)` when
`remaining ≥ MIN_SPAN`, `s = remaining` when `current/2 = 0`, and
`s = current/2` otherwise — i.e. the `MIN_SPAN` floor applies only when
`remaining ≥ MIN_SPAN`; the result is always ≥ 1 and is recorded as the
chain's `lastGood` span hint. -/
theorem claimC4_theorem (hints : HoldersIndexer.SpanHints) (chainId c r m : ℕ)
    (hc : 1 ≤ c) (hr : 1 ≤ r) (hm : 1 ≤ m) :
    (HoldersIndexer.shrinkSpan hints chainId c r m).1 =
      min m (if HoldersIndexer.MIN_BLOCK_SPAN ≤ r
             then min r (max (c / 2) HoldersIndexer.MIN_BLOCK_SPAN)
             else if c / 2 = 0 then r else min r (c / 2)) ∧
    (HoldersIndexer.shrinkSpan hints chainId c r m).2 chainId =
      some (HoldersIndexer.shrinkSpan hints chainId c r m).1 ∧
    1 ≤ (HoldersIndexer.shrinkSpan hints chainId c r m).1 := by
  refine ⟨?_, ?_, HoldersIndexer.shrinkSpan_pos hints chainId c r m hr hm⟩
  · simp only [HoldersIndexer.shrinkSpan, HoldersIndexer.MIN_BLOCK_SPAN]
    split_ifs <;> omega
  · rw [HoldersIndexer.shrinkSpan_snd]
    simp [HoldersIndexer.SpanHints.set]

/-- Witness for the amended C4 at `current = 1000`, `remaining = 400`,
`maxSpan = 2000`. -/
theorem claimC4_witness :
    (HoldersIndexer.shrinkSpan (fun _ => none) 1 1000 400 2000).1 =
      min 2000 (if HoldersIndexer.MIN_BLOCK_SPAN ≤ 400
             then min 400 (max (1000 / 2) HoldersIndexer.MIN_BLOCK_SPAN)
             else if 1000 / 2 = 0 then 400 else min 400 (1000 / 2)) ∧
    (HoldersIndexer.shrinkSpan (fun _ => none) 1 1000 400 2000).2 1 =
      some (HoldersIndexer.shrinkSpan (fun _ => none) 1 1000 400 2000).1 ∧
    1 ≤ (HoldersIndexer.shrinkSpan (fun _ => none) 1 1000 400 2000).1 :=
  claimC4_theorem (fun _ => none) 1 1000 400 2000 (by decide) (by decide) (by decide)

/-- Claim C10. For `remaining ≥ 1` and `maxSpan ≥ 1`, `getInitialSpan` and
`shrinkSpan` both return a span ≥ 1, `shrinkSpan` stores exactly that
value (≥ 1) in the span-hint map, and hence the window end
`startBlock + span − 1` is never below `startBlock`. -/
theorem claimC10_theorem (hints : HoldersIndexer.SpanHints) (chainId r m : ℕ)
    (hr : 1 ≤ r) (hm : 1 ≤ m) :
    1 ≤ HoldersIndexer.getInitialSpan hints chainId r m ∧
    (∀ c, 1 ≤ (HoldersIndexer.shrinkSpan hints chainId c r m).1 ∧
      (HoldersIndexer.shrinkSpan hints chainId c r m).2 chainId =
        some (HoldersIndexer.shrinkSpan hints chainId c r m).1) ∧
    (∀ startBlock span : ℕ, 1 ≤ span → startBlock ≤ startBlock + span - 1) := by
  refine ⟨HoldersIndexer.getInitialSpan_pos hints chainId r m hr hm, ?_, ?_⟩
  · intro c
    refine ⟨HoldersIndexer.shrinkSpan_pos hints chainId c r m hr hm, ?_⟩
    rw [HoldersIndexer.shrinkSpan_snd]
    simp [HoldersIndexer.SpanHints.set]
  · intro startBlock span hs
    omega

/-- Witness for C10 at `remaining = 250`, `maxSpan = 2000`,
`current = 500`, window start 3 with span 5. -/
theorem claimC10_witness :
    1 ≤ HoldersIndexer.getInitialSpan (fun _ => none) 137 250 2000 ∧
    1 ≤ (HoldersIndexer.shrinkSpan (fun _ => none) 137 500 250 2000).1 ∧
    (HoldersIndexer.shrinkSpan (fun _ => none) 137 500 250 2000).2 137 =
      some (HoldersIndexer.shrinkSpan (fun _ => none) 137 500 250 2000).1 ∧
    3 ≤ 3 + 5 - 1 :=
  have t := claimC10_theorem (fun _ => none) 137 250 2000 (by decide) (by decide)
  ⟨t.1, (t.2.1 500).1, (t.2.1 500).2, t.2.2 3 5 (by decide)⟩


namespace HoldersIndexer

theorem attemptLoopGo_step_success (outcome : ℕ → ℕ → FetchOutcome)
    (chainId startBlock remaining maxSpan fuel attempt span : ℕ) (hints : SpanHints)
    (l t : ℕ) (houtcome : outcome attempt span = .success l t) :
    attemptLoopGo outcome chainId startBlock remaining maxSpan (fuel + 1) attempt span hints =
      (.committed startBlock (startBlock + span - 1) span, hints.set chainId span, [span]) := by
  simp [attemptLoopGo, houtcome]

theorem attemptLoopGo_step_ratelimit (outcome : ℕ → ℕ → FetchOutcome)
    (chainId startBlock remaining maxSpan fuel attempt span : ℕ) (hints : SpanHints)
    (e : JsErrorModel) (houtcome : outcome attempt span = .failure e)
    (hrl : e.isRateLimit = true) :
    attemptLoopGo outcome chainId startBlock remaining maxSpan (fuel + 1) attempt span hints =
      (.raised e, hints, [span]) := by
  simp [attemptLoopGo, houtcome, hrl]

theorem attemptLoopGo_step_other (outcome : ℕ → ℕ → FetchOutcome)
    (chainId startBlock remaining maxSpan fuel attempt span : ℕ) (hints : SpanHints)
    (e : JsErrorModel) (houtcome : outcome attempt span = .failure e)
    (hrl : e.isRateLimit = false) (hbr : isBlockRangeTooLargeError e = false) :
    attemptLoopGo outcome chainId startBlock remaining maxSpan (fuel + 1) attempt span hints =
      (.raised e, hints, [span]) := by
  simp [attemptLoopGo, houtcome, hrl, hbr]

theorem attemptLoopGo_step_raise (outcome : ℕ → ℕ → FetchOutcome)
    (chainId startBlock remaining maxSpan fuel attempt span : ℕ) (hints : SpanHints)
    (e : JsErrorModel) (houtcome : outcome attempt span = .failure e)
    (hrl : e.isRateLimit = false) (hbr : isBlockRangeTooLargeError e = true)
    (hsame : (shrinkSpan hints chainId span remaining maxSpan).1 = span ∨
      attempt = MAX_SPAN_RETRIES - 1) :
    attemptLoopGo outcome chainId startBlock remaining maxSpan (fuel + 1) attempt span hints =
      (.raised e, (shrinkSpan hints chainId span remaining maxSpan).2, [span]) := by
  simp [attemptLoopGo, houtcome, hrl, hbr, hsame]

theorem attemptLoopGo_step_shrink (outcome : ℕ → ℕ → FetchOutcome)
    (chainId startBlock remaining maxSpan fuel attempt span : ℕ) (hints : SpanHints)
    (e : JsErrorModel) (houtcome : outcome attempt span = .failure e)
    (hrl : e.isRateLimit = false) (hbr : isBlockRangeTooLargeError e = true)
    (hsame : ¬ ((shrinkSpan hints chainId span remaining maxSpan).1 = span ∨
      attempt = MAX_SPAN_RETRIES - 1)) :
    attemptLoopGo outcome chainId startBlock remaining maxSpan (fuel + 1) attempt span hints =
      ((attemptLoopGo outcome chainId startBlock remaining maxSpan fuel (attempt + 1)
          (shrinkSpan hints chainId span remaining maxSpan).1
          (shrinkSpan hints chainId span remaining maxSpan).2).1,
        (attemptLoopGo outcome chainId startBlock remaining maxSpan fuel (attempt + 1)
          (shrinkSpan hints chainId span remaining maxSpan).1
          (shrinkSpan hints chainId span remaining maxSpan).2).2.1,
        span :: (attemptLoopGo outcome chainId startBlock remaining maxSpan fuel (attempt + 1)
          (shrinkSpan hints chainId span remaining maxSpan).1
          (shrinkSpan hints chainId span remaining maxSpan).2).2.2) := by
  simp only [attemptLoopGo, houtcome]
  simp [hrl, hbr, hsame]

theorem attemptLoopGo_trace_length (outcome : ℕ → ℕ → FetchOutcome)
    (chainId startBlock remaining maxSpan : ℕ) :
    ∀ fuel attempt span hints,
      (attemptLoopGo outcome chainId startBlock remaining maxSpan
        fuel attempt span hints).2.2.length ≤ fuel := by
  intro fuel
  induction fuel with
  | zero => intro attempt span hints; simp [attemptLoopGo]
  | succ fuel ih =>
    intro attempt span hints
    cases houtcome : outcome attempt span with
    | success l t =>
      rw [attemptLoopGo_step_success outcome chainId startBlock remaining maxSpan
        fuel attempt span hints l t houtcome]
      simp
    | failure e =>
      cases hrl : e.isRateLimit with
      | true =>
        rw [attemptLoopGo_step_ratelimit outcome chainId startBlock remaining maxSpan
          fuel attempt span hints e houtcome hrl]
        simp
      | false =>
        cases hbr : isBlockRangeTooLargeError e with
        | false =>
          rw [attemptLoopGo_step_other outcome chainId startBlock remaining maxSpan
            fuel attempt span hints e houtcome hrl hbr]
          simp
        | true =>
          by_cases hsame : (shrinkSpan hints chainId span remaining maxSpan).1 = span ∨
              attempt = MAX_SPAN_RETRIES - 1
          · rw [attemptLoopGo_step_raise outcome chainId startBlock remaining maxSpan
              fuel attempt span hints e houtcome hrl hbr hsame]
            simp
          · rw [attemptLoopGo_step_shrink outcome chainId startBlock remaining maxSpan
              fuel attempt span hints e houtcome hrl hbr hsame]
            have hrec := ih (attempt + 1)
              (shrinkSpan hints chainId span remaining maxSpan).1
              (shrinkSpan hints chainId span remaining maxSpan).2
            simp only [List.length_cons]
            omega

theorem attemptLoopGo_trace_head (outcome : ℕ → ℕ → FetchOutcome)
    (chainId startBlock remaining maxSpan : ℕ)
    (fuel attempt span : ℕ) (hints : SpanHints) :
    ∃ rest, (attemptLoopGo outcome chainId startBlock remaining maxSpan
      (fuel + 1) attempt span hints).2.2 = span :: rest := by
  cases houtcome : outcome attempt span with
  | success l t =>
    rw [attemptLoopGo_step_success outcome chainId startBlock remaining maxSpan
      fuel attempt span hints l t houtcome]
    exact ⟨[], rfl⟩
  | failure e =>
    cases hrl : e.isRateLimit with
    | true =>
      rw [attemptLoopGo_step_ratelimit outcome chainId startBlock remaining maxSpan
        fuel attempt span hints e houtcome hrl]
      exact ⟨[], rfl⟩
    | false =>
      cases hbr : isBlockRangeTooLargeError e with
      | false =>
        rw [attemptLoopGo_step_other outcome chainId startBlock remaining maxSpan
          fuel attempt span hints e houtcome hrl hbr]
        exact ⟨[], rfl⟩
      | true =>
        by_cases hsame : (shrinkSpan hints chainId span remaining maxSpan).1 = span ∨
            attempt = MAX_SPAN_RETRIES - 1
        · rw [attemptLoopGo_step_raise outcome chainId startBlock remaining maxSpan
            fuel attempt span hints e houtcome hrl hbr hsame]
          exact ⟨[], rfl⟩
        · rw [attemptLoopGo_step_shrink outcome chainId startBlock remaining maxSpan
            fuel attempt span hints e houtcome hrl hbr hsame]
          exact ⟨_, rfl⟩

theorem attemptLoopGo_trace_chain (outcome : ℕ → ℕ → FetchOutcome)
    (chainId startBlock remaining maxSpan : ℕ) (hints0 : SpanHints) :
    ∀ fuel attempt span hints,
      List.Chain' (fun a b => b = (shrinkSpan hints0 chainId a remaining maxSpan).1)
        (attemptLoopGo outcome chainId startBlock remaining maxSpan
          fuel attempt span hints).2.2 := by
  intro fuel
  induction fuel with
  | zero => intro attempt span hints; simp [attemptLoopGo]
  | succ fuel ih =>
    intro attempt span hints
    cases houtcome : outcome attempt span with
    | success l t =>
      rw [attemptLoopGo_step_success outcome chainId startBlock remaining maxSpan
        fuel attempt span hints l t houtcome]
      simp
    | failure e =>
      cases hrl : e.isRateLimit with
      | true =>
        rw [attemptLoopGo_step_ratelimit outcome chainId startBlock remaining maxSpan
          fuel attempt span hints e houtcome hrl]
        simp
      | false =>
        cases hbr : isBlockRangeTooLargeError e with
        | false =>
          rw [attemptLoopGo_step_other outcome chainId startBlock remaining maxSpan
            fuel attempt span hints e houtcome hrl hbr]
          simp
        | true =>
          by_cases hsame : (shrinkSpan hints chainId span remaining maxSpan).1 = span ∨
              attempt = MAX_SPAN_RETRIES - 1
          · rw [attemptLoopGo_step_raise outcome chainId startBlock remaining maxSpan
              fuel attempt span hints e houtcome hrl hbr hsame]
            simp
          · rw [attemptLoopGo_step_shrink outcome chainId startBlock remaining maxSpan
              fuel attempt span hints e houtcome hrl hbr hsame]
            cases fuel with
            | zero => simp [attemptLoopGo]
            | succ fuel2 =>
              obtain ⟨rest, hrest⟩ := attemptLoopGo_trace_head outcome chainId startBlock
                remaining maxSpan fuel2 (attempt + 1)
                (shrinkSpan hints chainId span remaining maxSpan).1
                (shrinkSpan hints chainId span remaining maxSpan).2
              have hchain := ih (attempt + 1)
                (shrinkSpan hints chainId span remaining maxSpan).1
                (shrinkSpan hints chainId span remaining maxSpan).2
              rw [hrest] at hchain
              rw [hrest]
              exact List.Chain'.cons
                (shrinkSpan_fst_hints_indep hints hints0 chainId span remaining maxSpan) hchain

theorem attemptLoopGo_same_span (outcome : ℕ → ℕ → FetchOutcome)
    (chainId startBlock remaining maxSpan : ℕ)
    (fuel attempt span : ℕ) (hints : SpanHints) (e : JsErrorModel)
    (hfail : outcome attempt span = .failure e) (hrl : e.isRateLimit = false)
    (hbr : isBlockRangeTooLargeError e = true)
    (hsame : (shrinkSpan hints chainId span remaining maxSpan).1 = span) :
    attemptLoopGo outcome chainId startBlock remaining maxSpan
      (fuel + 1) attempt span hints =
      (.raised e, (shrinkSpan hints chainId span remaining maxSpan).2, [span]) :=
  attemptLoopGo_step_raise outcome chainId startBlock remaining maxSpan
    fuel attempt span hints e hfail hrl hbr (Or.inl hsame)

end HoldersIndexer

/-- Claim C5. `MAX_SPAN_RETRIES = 4`; for any oracle of fetch outcomes the
retry loop of `processCursor` performs at most `MAX_SPAN_RETRIES`
`getLogs` attempts (and is total by construction); each retry uses
exactly the span produced by `shrinkSpan` from the previous attempt's
span; and when a retry's shrink produces the same span as the previous
attempt, the error is re-raised instead of retrying further. -/
theorem claimC5_theorem (outcome : ℕ → ℕ → HoldersIndexer.FetchOutcome)
    (chainId startBlock remaining maxSpan span : ℕ) (hints : HoldersIndexer.SpanHints) :
    HoldersIndexer.MAX_SPAN_RETRIES = 4 ∧
    (HoldersIndexer.attemptLoopGo outcome chainId startBlock remaining maxSpan
      HoldersIndexer.MAX_SPAN_RETRIES 0 span hints).2.2.length ≤
        HoldersIndexer.MAX_SPAN_RETRIES ∧
    List.Chain'
      (fun a b => b = (HoldersIndexer.shrinkSpan hints chainId a remaining maxSpan).1)
      (HoldersIndexer.attemptLoopGo outcome chainId startBlock remaining maxSpan
        HoldersIndexer.MAX_SPAN_RETRIES 0 span hints).2.2 ∧
    (∀ fuel attempt span' hints' e,
      outcome attempt span' = .failure e → e.isRateLimit = false →
      HoldersIndexer.isBlockRangeTooLargeError e = true →
      (HoldersIndexer.shrinkSpan hints' chainId span' remaining maxSpan).1 = span' →
      HoldersIndexer.attemptLoopGo outcome chainId startBlock remaining maxSpan
        (fuel + 1) attempt span' hints' =
        (.raised e, (HoldersIndexer.shrinkSpan hints' chainId span' remaining maxSpan).2,
          [span'])) :=
  ⟨rfl,
   HoldersIndexer.attemptLoopGo_trace_length outcome chainId startBlock remaining maxSpan
     HoldersIndexer.MAX_SPAN_RETRIES 0 span hints,
   HoldersIndexer.attemptLoopGo_trace_chain outcome chainId startBlock remaining maxSpan
     hints HoldersIndexer.MAX_SPAN_RETRIES 0 span hints,
   fun fuel attempt span' hints' e hf hr hb hs =>
     HoldersIndexer.attemptLoopGo_same_span outcome chainId startBlock remaining maxSpan
       fuel attempt span' hints' e hf hr hb hs⟩

/-- Witness for C5: a constantly failing block-range oracle at span 100
with 1000 blocks remaining, where `shrinkSpan` reproduces span 100, so the
error is re-raised on the very first retry decision. -/
theorem claimC5_witness :
    HoldersIndexer.MAX_SPAN_RETRIES = 4 ∧
    (HoldersIndexer.attemptLoopGo
      (fun _ _ => .failure ⟨true, false, some (-32062), ("boom")⟩)
      7 0 1000 2000 HoldersIndexer.MAX_SPAN_RETRIES 0 100 (fun _ => none)).2.2.length ≤
        HoldersIndexer.MAX_SPAN_RETRIES ∧
    List.Chain'
      (fun a b => b = (HoldersIndexer.shrinkSpan (fun _ => none) 7 a 1000 2000).1)
      (HoldersIndexer.attemptLoopGo
        (fun _ _ => .failure ⟨true, false, some (-32062), ("boom")⟩)
        7 0 1000 2000 HoldersIndexer.MAX_SPAN_RETRIES 0 100 (fun _ => none)).2.2 ∧
    HoldersIndexer.attemptLoopGo
      (fun _ _ => .failure ⟨true, false, some (-32062), ("boom")⟩)
      7 0 1000 2000 (0 + 1) 0 100 (fun _ => none) =
      (.raised ⟨true, false, some (-32062), ("boom")⟩,
        (HoldersIndexer.shrinkSpan (fun _ => none) 7 100 1000 2000).2, [100]) :=
  have t := claimC5_theorem
    (fun _ _ => .failure ⟨true, false, some (-32062), ("boom")⟩)
    7 0 1000 2000 100 (fun _ => none)
  ⟨t.1, t.2.1, t.2.2.1,
    t.2.2.2 0 0 100 (fun _ => none) ⟨true, false, some (-32062), ("boom")⟩
      rfl rfl (by decide) (by decide)⟩

/-- Claim C9. The batch start block equals `cursor.fromBlock` when non-null,
otherwise `cursor.toBlock + 1` when non-null, otherwise
`tip − INITIAL_LOOKBACK` clamped at 0; and whenever the start block
exceeds the tip, `processCursor` performs no `getLogs` call and no
database mutation and reports no work. -/
theorem claimC9_theorem (cursor : HoldersIndexer.TokenCursor) (latestBlock : ℕ)
    (outcome : ℕ → ℕ → HoldersIndexer.FetchOutcome)
    (hints : HoldersIndexer.SpanHints) (maxSpan : ℕ) :
    HoldersIndexer.computeStartBlock cursor latestBlock =
      HoldersIndexer.claimStartBlock cursor latestBlock ∧
    (latestBlock < HoldersIndexer.computeStartBlock cursor latestBlock →
      HoldersIndexer.processCursorModel cursor latestBlock outcome hints maxSpan =
        (.noWork, hints, [])) := by
  constructor
  · unfold HoldersIndexer.computeStartBlock HoldersIndexer.claimStartBlock
    cases cursor.fromBlock with
    | some fb => rfl
    | none =>
      cases cursor.toBlock with
      | some tb => rfl
      | none =>
        simp only [HoldersIndexer.INITIAL_LOOKBACK_BLOCKS]
        norm_num
        omega
  · intro h
    simp only [HoldersIndexer.processCursorModel]
    rw [if_pos h]

/-- Witness for C9: a cursor whose `fromBlock = 100` against a tip of 50. -/
theorem claimC9_witness :
    HoldersIndexer.computeStartBlock ⟨137, ("0xtok"), some 100, none⟩ 50 =
      HoldersIndexer.claimStartBlock ⟨137, ("0xtok"), some 100, none⟩ 50 ∧
    HoldersIndexer.processCursorModel ⟨137, ("0xtok"), some 100, none⟩ 50
      (fun _ _ => .success 0 0) (fun _ => none) 2000 =
      (.noWork, (fun _ => none), []) :=
  have t := claimC9_theorem ⟨137, ("0xtok"), some 100, none⟩ 50
    (fun _ _ => .success 0 0) (fun _ => none) 2000
  ⟨t.1, t.2 (by decide)⟩

/-- Claim C7, counterexample. An error whose message is
"block range exceeded" (it contains both "range" and no code) is
classified as `BlockRangeTooLarge` by the claim but NOT by the code:
`isBlockRangeTooLargeError` only matches the substrings "-32062",
"-32602", "status 413" and "payload too large". -/
theorem claimC7_counterexample :
    HoldersIndexer.isBlockRangeTooLargeError
      ⟨true, false, none, ("block range exceeded")⟩ = false ∧
    HoldersIndexer.claimBlockRangeClassifier
      ⟨true, false, none, ("block range exceeded")⟩ = true := by
  constructor
  · decide
  · decide

/-- Claim C7, amended. An error is classified `BlockRangeTooLarge` exactly
when its numeric `code` is −32062 or −32602, or its lower-cased message
contains one of the substrings "-32062", "-32602", "status 413",
"payload too large" (NOT the bare substrings "range" / "too large", and a
413 payload is only recognised through the transport error message
"status 413"); and in the retry loop every non-rate-limited error that
fails this classifier is re-raised without feeding the span-shrink path. -/
theorem claimC7_theorem :
    (∀ e : HoldersIndexer.JsErrorModel,
      HoldersIndexer.isBlockRangeTooLargeError e = true ↔
        (e.isError = true ∧
          (e.code = some (-32062) ∨ e.code = some (-32602) ∨
            JsModel.strContains (JsModel.lowerAscii e.message) ("-32062") = true ∨
            JsModel.strContains (JsModel.lowerAscii e.message) ("-32602") = true ∨
            JsModel.strContains (JsModel.lowerAscii e.message) ("status 413") = true ∨
            JsModel.strContains (JsModel.lowerAscii e.message) ("payload too large") = true))) ∧
    (∀ (outcome : ℕ → ℕ → HoldersIndexer.FetchOutcome)
      (chainId startBlock remaining maxSpan fuel attempt span : ℕ)
      (hints : HoldersIndexer.SpanHints) (e : HoldersIndexer.JsErrorModel),
      outcome attempt span = .failure e → e.isRateLimit = false →
      HoldersIndexer.isBlockRangeTooLargeError e = false →
      HoldersIndexer.attemptLoopGo outcome chainId startBlock remaining maxSpan
        (fuel + 1) attempt span hints = (.raised e, hints, [span])) := by
  constructor
  · intro e
    unfold HoldersIndexer.isBlockRangeTooLargeError
    cases hE : e.isError with
    | false => simp [hE]
    | true =>
      simp only [hE, Bool.not_true, Bool.false_eq_true, if_false]
      split_ifs with h1 h2 h3 <;> simp_all <;> tauto
  · intro outcome chainId startBlock remaining maxSpan fuel attempt span hints e hf hr hb
    exact HoldersIndexer.attemptLoopGo_step_other outcome chainId startBlock remaining
      maxSpan fuel attempt span hints e hf hr hb

/-- Witness for C7: the classifier characterization at a −32062-coded
error, and the re-raise of a non-matching error in the loop. -/
theorem claimC7_witness :
    (HoldersIndexer.isBlockRangeTooLargeError ⟨true, false, some (-32062), ("x")⟩ = true ↔
      ((⟨true, false, some (-32062), ("x")⟩ : HoldersIndexer.JsErrorModel).isError = true ∧
        ((⟨true, false, some (-32062), ("x")⟩ : HoldersIndexer.JsErrorModel).code =
            some (-32062) ∨
          (⟨true, false, some (-32062), ("x")⟩ : HoldersIndexer.JsErrorModel).code =
            some (-32602) ∨
          JsModel.strContains (JsModel.lowerAscii ("x")) ("-32062") = true ∨
          JsModel.strContains (JsModel.lowerAscii ("x")) ("-32602") = true ∨
          JsModel.strContains (JsModel.lowerAscii ("x")) ("status 413") = true ∨
          JsModel.strContains (JsModel.lowerAscii ("x")) ("payload too large") = true))) ∧
    HoldersIndexer.attemptLoopGo
      (fun _ _ => .failure ⟨true, false, none, ("boom")⟩) 1 0 10 10 (0 + 1) 0 5
      (fun _ => none) =
      (.raised ⟨true, false, none, ("boom")⟩, (fun _ => none), [5]) :=
  ⟨claimC7_theorem.1 ⟨true, false, some (-32062), ("x")⟩,
   claimC7_theorem.2 (fun _ _ => .failure ⟨true, false, none, ("boom")⟩)
     1 0 10 10 0 0 5 (fun _ => none) ⟨true, false, none, ("boom")⟩
     rfl rfl (by decide)⟩

/-- Claim C6, counterexample. When the `Retry-After` header is an HTTP-date
500 ms in the future, `parseRetryAfter` returns the raw delta of 500 ms —
below the claimed 1-second floor — and a 429 response then fails with
`RateLimited{retryAfter = 500 ms}`. -/
theorem claimC6_counterexample :
    RpcClient.parseRetryAfter (.httpDate 500) 0 = 500 ∧ (500 : ℤ) < 1000 ∧
    RpcClient.call 429 (.httpDate 500) .success 0 ("eth_getLogs") =
      .rateLimited 500 (("RPC ") ++ ("eth_getLogs") ++ (" rate limited")) := by
  refine ⟨by decide, by decide, by decide⟩

/-- Claim C6, amended. `retryAfter` is at least 1000 ms for an absent,
unparsable or numeric `Retry-After` hint (for a numeric hint it is
`max(1000, ceil(seconds·1000))`), but for an HTTP-date hint strictly less
than one second in the future it equals the raw positive delta, below the
floor; the code-derived hint for −32005/−32016 is a fixed 2000 ms; and
every HTTP 429/503 response fails as `RateLimited` carrying
`parseRetryAfter` of the header. -/
theorem claimC6_theorem :
    (∀ (h : RpcClient.RetryAfterHeader) (now : ℤ),
      1000 ≤ RpcClient.parseRetryAfter h now ∨
      (∃ t, h = .httpDate t ∧ 0 < t - now ∧ t - now < 1000 ∧
        RpcClient.parseRetryAfter h now = t - now)) ∧
    (RpcClient.inferRetryAfterFromCode (-32005) = 2000 ∧
      RpcClient.inferRetryAfterFromCode (-32016) = 2000) ∧
    (∀ (status : ℕ) (h : RpcClient.RetryAfterHeader) (payload : RpcClient.JsonRpcPayload)
      (now : ℤ) (method : String), status = 429 ∨ status = 503 →
      RpcClient.call status h payload now method =
        .rateLimited (RpcClient.parseRetryAfter h now)
          (("RPC ") ++ method ++ (" rate limited"))) := by
  refine ⟨?_, ⟨by decide, by decide⟩, ?_⟩
  · intro h now
    cases h with
    | absent => left; simp [RpcClient.parseRetryAfter]
    | numeric seconds => left; simp [RpcClient.parseRetryAfter]
    | invalid => left; simp [RpcClient.parseRetryAfter]
    | httpDate t =>
      by_cases hpos : t - now > 0
      · by_cases hsmall : t - now < 1000
        · right
          exact ⟨t, rfl, hpos, hsmall, by simp [RpcClient.parseRetryAfter, hpos]⟩
        · left
          simp only [RpcClient.parseRetryAfter, if_pos hpos]
          omega
      · left
        simp [RpcClient.parseRetryAfter, hpos]
  · intro status h payload now method hstatus
    unfold RpcClient.call
    rw [if_pos hstatus]

/-- Witness for C6: the absent-header floor resolved to its left
disjunct, and a concrete 429 call classified as rate-limited. -/
theorem claimC6_witness :
    1000 ≤ RpcClient.parseRetryAfter .absent 0 ∧
    RpcClient.call 429 .absent .success 0 ("eth_blockNumber") =
      .rateLimited (RpcClient.parseRetryAfter .absent 0)
        (("RPC ") ++ ("eth_blockNumber") ++ (" rate limited")) :=
  ⟨(claimC6_theorem.1 .absent 0).resolve_right (by simp),
   claimC6_theorem.2.2 429 .absent .success 0 ("eth_blockNumber") (Or.inl rfl)⟩


namespace TokenService
open JsModel

theorem buildItems_length (baseRank : ℤ) :
    ∀ (index : ℕ) (l : List EtherscanTokenHolderDto),
      (buildItems baseRank index l).length = l.length := by
  intro index l
  induction l generalizing index with
  | nil => rfl
  | cons dto rest ih => simp [buildItems, ih]

theorem clampLimit_bounds (raw : Option ℚ) :
    1 ≤ clampLimit raw ∧ clampLimit raw ≤ 100 := by
  cases raw with
  | none =>
    have h : clampLimit none = 25 := rfl
    rw [h]
    exact ⟨by omega, by omega⟩
  | some q =>
    have h : clampLimit (some q) =
        if ⌊q⌋ < 1 then 1 else if ⌊q⌋ > 100 then 100 else (⌊q⌋).toNat := rfl
    rw [h]
    split_ifs <;> constructor <;> omega

end TokenService

namespace TokenService

theorem normalize_nextCursor (dtoList : Option (List EtherscanTokenHolderDto))
    (page limit : ℕ) (hl : 1 ≤ limit) :
    ((normalizeEtherscanPayload dtoList page limit).nextCursor.isSome ↔
      (normalizeEtherscanPayload dtoList page limit).items.length = limit) ∧
    ((normalizeEtherscanPayload dtoList page limit).items.length = limit →
      (normalizeEtherscanPayload dtoList page limit).nextCursor =
        some (JsModel.natToString (page + 1))) := by
  cases dtoList with
  | none =>
    constructor
    · simp [normalizeEtherscanPayload]
      omega
    · intro h
      simp [normalizeEtherscanPayload] at h
      omega
  | some l =>
    by_cases h0 : l.length = 0
    · constructor
      · simp [normalizeEtherscanPayload, h0]
        omega
      · intro h
        simp [normalizeEtherscanPayload, h0] at h
        omega
    · have hr : normalizeEtherscanPayload (some l) page limit =
          ⟨buildItems (((page : ℤ) - 1) * (limit : ℤ)) 0 l,
           if (buildItems (((page : ℤ) - 1) * (limit : ℤ)) 0 l).length = limit
           then some (JsModel.natToString (page + 1)) else none⟩ := by
        simp [normalizeEtherscanPayload, h0]
      rw [hr]
      by_cases hc : (buildItems (((page : ℤ) - 1) * (limit : ℤ)) 0 l).length = limit
      · simp [hc]
      · simp [hc]

end TokenService

/-- Claim C1, amended. Whenever `getTokenHolders` returns successfully, the
response's `nextCursor` is present iff the number of returned items
equals the clamped `limit`; but when present it is the decimal string
`page + 1` — the NEXT PAGE INDEX — not an encoding of the last returned
row. -/
theorem claimC1_theorem (adapter : Option TokenService.Adapter) (cursor : Option String)
    (limit : Option ℚ) (body : TokenService.VendorBody)
    (resp : TokenService.TokenHoldersResponse)
    (hok : TokenService.getTokenHolders adapter cursor limit body = .ok resp) :
    (resp.nextCursor.isSome ↔ resp.items.length = TokenService.clampLimit limit) ∧
    (resp.items.length = TokenService.clampLimit limit →
      resp.nextCursor = some (JsModel.natToString (TokenService.parseCursor cursor + 1))) := by
  obtain ⟨hl1, hl2⟩ := TokenService.clampLimit_bounds limit
  unfold TokenService.getTokenHolders at hok
  cases adapter with
  | none => exact absurd hok (by simp)
  | some a =>
    by_cases hs : a.supported
    · simp only [hs, Bool.not_true, Bool.false_eq_true, if_false] at hok
      unfold TokenService.requestEtherscanTokenHolders at hok
      split at hok
      · simp only [Except.ok.injEq] at hok
        subst hok
        constructor
        · simp
          omega
        · intro h
          simp at h
          omega
      · split at hok
        · simp only [Except.ok.injEq] at hok
          subst hok
          exact TokenService.normalize_nextCursor _ _ _ hl1
        · split at hok
          · simp only [Except.ok.injEq] at hok
            subst hok
            constructor
            · simp
              omega
            · intro h
              simp at h
              omega
          · exact absurd hok (by simp)
        · exact absurd hok (by simp)
    · simp only [hs] at hok
      exact absurd hok (by simp)

/-- Claim C1, counterexample. With limit 2 and a two-row page the response
carries `nextCursor = "2"` (the next page index), which is not the
claimed encoding `"<balance>:<holder>"` of the last returned row
(balance 400, holder `0xbbbb`). -/
theorem claimC1_counterexample :
    (TokenService.getTokenHolders (some ⟨true⟩) none (some 2)
      TokenService.sampleBody).toOption.map TokenService.TokenHoldersResponse.nextCursor =
      some (some (JsModel.natToString 2)) ∧
    (TokenService.getTokenHolders (some ⟨true⟩) none (some 2)
      TokenService.sampleBody).toOption.map
        (fun r => r.items.length) = some 2 ∧
    JsModel.natToString 2 ≠ TokenService.encodeHolderCursor 400 ("0xbbbb") := by
  refine ⟨by decide, by decide, by decide⟩

/-- Witness for the amended C1 at the concrete two-row page. -/
theorem claimC1_witness :
    ((TokenService.normalizeEtherscanPayload
        (some [⟨("0xaaaa"), ("1000"), none, none⟩, ⟨("0xbbbb"), ("400"), none, none⟩])
        1 2).nextCursor.isSome ↔
      (TokenService.normalizeEtherscanPayload
        (some [⟨("0xaaaa"), ("1000"), none, none⟩, ⟨("0xbbbb"), ("400"), none, none⟩])
        1 2).items.length = TokenService.clampLimit (some 2)) ∧
    ((TokenService.normalizeEtherscanPayload
        (some [⟨("0xaaaa"), ("1000"), none, none⟩, ⟨("0xbbbb"), ("400"), none, none⟩])
        1 2).items.length = TokenService.clampLimit (some 2) →
      (TokenService.normalizeEtherscanPayload
        (some [⟨("0xaaaa"), ("1000"), none, none⟩, ⟨("0xbbbb"), ("400"), none, none⟩])
        1 2).nextCursor =
        some (JsModel.natToString (TokenService.parseCursor none + 1))) :=
  claimC1_theorem (some ⟨true⟩) none (some 2) TokenService.sampleBody
    (TokenService.normalizeEtherscanPayload
      (some [⟨("0xaaaa"), ("1000"), none, none⟩, ⟨("0xbbbb"), ("400"), none, none⟩]) 1 2)
    rfl

/-- Claim C2, counterexample. The code's cursor decoder is `parseCursor`,
which reads a PAGE NUMBER: the canonical encodings of two different
`(balance, address)` pairs both decode to page 1, so decoding cannot
recover the original pair — the round-trip claimed for
`"<balance_decimal>:<holder_lowerhex>"` fails on the code. -/
theorem claimC2_counterexample :
    TokenService.parseCursor (some (TokenService.encodeHolderCursor 1000 ("0xaaaa"))) = 1 ∧
    TokenService.parseCursor (some (TokenService.encodeHolderCursor 2000 ("0xbbbb"))) = 1 ∧
    TokenService.encodeHolderCursor 1000 ("0xaaaa") ≠
      TokenService.encodeHolderCursor 2000 ("0xbbbb") ∧
    TokenRouter.sanitizeCursor (some (TokenService.encodeHolderCursor 1000 ("0xaaaa"))) =
      none := by
  refine ⟨by decide, by decide, by decide, by decide⟩

/-- Claim C2, amended. The code's cursors are decimal page indices, not
`(balance, holder)` pairs: for every page `p ≥ 1`, printing `p` and
decoding it through `parseCursor` yields `p` again, and the router's
`sanitizeCursor` passes the printed page through unchanged — the
round-trip law holds for page numbers only. -/
theorem claimC2_theorem (p : ℕ) (hp : 1 ≤ p) :
    TokenService.parseCursor (some (JsModel.natToString p)) = p ∧
    TokenRouter.sanitizeCursor (some (JsModel.natToString p)) =
      some (JsModel.natToString p) := by
  have hjs := JsModel.jsStrToNumber_natToString p
  have hne : JsModel.natToString p ≠ ("") := by
    intro h
    exact JsModel.natToDecChars_ne_nil p (congrArg String.data h)
  have hfloor : ⌊((p : ℚ))⌋ = (p : ℤ) := Int.floor_natCast p
  have hlt : ¬ ((p : ℚ)) < 1 := by
    simp only [not_lt]
    exact_mod_cast hp
  have hneg : ¬ ((p : ℚ)) < 0 := by
    simp only [not_lt]
    positivity
  have hparse : TokenService.parseCursor (some (JsModel.natToString p)) =
      match JsModel.jsStrToNumber (JsModel.natToString p) with
      | none => 1
      | some q => if q < 1 then 1 else (⌊q⌋).toNat := by
    show (if JsModel.natToString p = ("") then 1
          else match JsModel.jsStrToNumber (JsModel.natToString p) with
            | none => 1
            | some q => if q < 1 then 1 else (⌊q⌋).toNat) = _
    rw [if_neg hne]
  have hsan : TokenRouter.sanitizeCursor (some (JsModel.natToString p)) =
      match JsModel.jsStrToNumber (JsModel.natToString p) with
      | none => none
      | some q => if q < 0 then none else some (JsModel.natToString ((⌊q⌋).toNat)) := by
    show (if JsModel.natToString p = ("") then none
          else match JsModel.jsStrToNumber (JsModel.natToString p) with
            | none => none
            | some q => if q < 0 then none else some (JsModel.natToString ((⌊q⌋).toNat))) = _
    rw [if_neg hne]
  constructor
  · rw [hparse, hjs]
    show (if ((p : ℚ)) < 1 then 1 else (⌊((p : ℚ))⌋).toNat) = p
    rw [if_neg hlt, hfloor]
    exact Int.toNat_natCast p
  · rw [hsan, hjs]
    show (if ((p : ℚ)) < 0 then none
          else some (JsModel.natToString ((⌊((p : ℚ))⌋).toNat))) =
      some (JsModel.natToString p)
    rw [if_neg hneg, hfloor, Int.toNat_natCast]

/-- Witness for the amended C2 at page 7. -/
theorem claimC2_witness :
    TokenService.parseCursor (some (JsModel.natToString 7)) = 7 ∧
    TokenRouter.sanitizeCursor (some (JsModel.natToString 7)) =
      some (JsModel.natToString 7) :=
  claimC2_theorem 7 (by decide)

/-- Claim C3, counterexample. On a valid request for supported chain 137,
an `EtherscanUpstreamError` thrown by the service surfaces to the HTTP
caller as a 502 `upstream_error` response carrying the vendor status and
message — an upstream failure kind, not a validation error and not
`UnsupportedChain`. -/
theorem claimC3_counterexample :
    TokenRouter.handler TokenRouter.sampleChains (some (("137")))
      (.upstream (some ("0")) (some ("NOTOK"))) =
      .badGateway ("upstream_error") ("etherscan") (some ("0")) (some ("NOTOK")) ∧
    ¬ TokenRouter.claimReadSurface
      (TokenRouter.handler TokenRouter.sampleChains (some (("137")))
        (.upstream (some ("0")) (some ("NOTOK")))) := by
  have h : TokenRouter.handler TokenRouter.sampleChains (some (("137")))
      (.upstream (some ("0")) (some ("NOTOK"))) =
      .badGateway ("upstream_error") ("etherscan") (some ("0")) (some ("NOTOK")) := by
    decide
  refine ⟨h, ?_⟩
  rw [TokenRouter.claimReadSurface, h]
  intro hc
  rcases hc with hc | hc | hc | ⟨items, nc, hc⟩ <;> simp at hc

/-- Claim C3, amended. The read endpoint's response is always one of: a 400
validation error (`missing_chain`, `invalid_chain`, `unsupported_chain` —
the latter also covering `UnsupportedChainError` from the service), a 200
payload, or a 502 `upstream_error` (vendor `etherscan` for
`EtherscanUpstreamError`, vendor `unknown` for any other thrown error) —
so upstream failures DO reach HTTP callers of the read path. -/
theorem claimC3_theorem (getChain : ℚ → Option TokenRouter.Chain)
    (chainIdParam : Option String) (outcome : TokenRouter.ReadOutcome) :
    TokenRouter.handler getChain chainIdParam outcome = .badRequest ("missing_chain") ∨
    TokenRouter.handler getChain chainIdParam outcome = .badRequest ("invalid_chain") ∨
    TokenRouter.handler getChain chainIdParam outcome = .badRequest ("unsupported_chain") ∨
    (∃ items nc, TokenRouter.handler getChain chainIdParam outcome = .okJson items nc) ∨
    (∃ vs vm, TokenRouter.handler getChain chainIdParam outcome =
      .badGateway ("upstream_error") ("etherscan") vs vm) ∨
    TokenRouter.handler getChain chainIdParam outcome =
      .badGateway ("upstream_error") ("unknown") none none := by
  unfold TokenRouter.handler
  repeat' split
  all_goals
    first
      | exact Or.inl rfl
      | exact Or.inr (Or.inl rfl)
      | exact Or.inr (Or.inr (Or.inl rfl))
      | exact Or.inr (Or.inr (Or.inr (Or.inl ⟨_, _, rfl⟩)))
      | exact Or.inr (Or.inr (Or.inr (Or.inr (Or.inl ⟨_, _, rfl⟩))))
      | exact Or.inr (Or.inr (Or.inr (Or.inr (Or.inr rfl))))


namespace AdminRouter
open JsModel

theorem normalizeAddress_empty : normalizeAddress ("") = none := rfl

end AdminRouter

/-- Claim C8, counterexample. `fromBlock = "0x10"` is not a non-negative
decimal integer, so the claim demands a 400 `invalid_from_block`; but the
code converts it with JavaScript `BigInt`, which accepts the hex string,
and the request is accepted with 202 and `EnqueueReindex(..., 16)`. -/
theorem claimC8_counterexample :
    AdminRouter.adminReindex AdminRouter.sampleAdapters (.num 137)
      (.str ("0xAAaaaaaaaaaaaaaaaaaaaaaaaaaaaaaaaaaaaaaa"))
      (.str ("0x10")) =
      .accepted 137 ("0xaaaaaaaaaaaaaaaaaaaaaaaaaaaaaaaaaaaaaaaa") (some 16) ∧
    AdminRouter.claimDecimalFromBlock (.str ("0x10")) = false := by
  refine ⟨by decide, by decide⟩

/-- Claim C8, amended. A reindex request with a non-numeric `chainId` is
rejected as 400 `invalid_chain`; with a finite `chainId` whose adapter is
missing or unsupported, as 400 `unsupported_chain`; with a supported
chain but a non-string token or one that does not normalise as 20-byte
hex, as 400 `invalid_token`; with a valid chain and token but a present,
non-blank `fromBlock` that JavaScript `BigInt` rejects or that is
negative, as 400 `invalid_from_block`; and it is accepted (202,
`EnqueueReindex(q, t, i)`) exactly when the adapter for `q` exists and is
supported, the token is a string normalising to lower-hex `t`, and
`fromBlock` is absent / null / blank (then `i = none`) or converts via
`BigInt` — which accepts decimal AND `0x`-prefixed hex — to a
non-negative integer `j` (then `i = some j`). -/
theorem claimC8_theorem (adapters : ℚ → Option AdminRouter.Adapter) (q : ℚ)
    (tok : AdminRouter.TokenField) (fb : AdminRouter.FromBlockField)
    (t : String) (i : Option ℤ) :
    AdminRouter.adminReindex adapters .notNumber tok fb = .invalidChain ∧
    (adapters q = none →
      AdminRouter.adminReindex adapters (.num q) tok fb = .unsupportedChain) ∧
    (∀ a, adapters q = some a → a.supported = false →
      AdminRouter.adminReindex adapters (.num q) tok fb = .unsupportedChain) ∧
    (∀ a, adapters q = some a → a.supported = true →
      AdminRouter.adminReindex adapters (.num q) .notString fb = .invalidToken) ∧
    (∀ a s, adapters q = some a → a.supported = true →
      AdminRouter.normalizeAddress s = none →
      AdminRouter.adminReindex adapters (.num q) (.str s) fb = .invalidToken) ∧
    (∀ a s t2, adapters q = some a → a.supported = true →
      AdminRouter.normalizeAddress s = some t2 →
      fb ≠ .absent → fb ≠ .nullVal → AdminRouter.fromBlockIsBlank fb = false →
      AdminRouter.jsBigIntOfField fb = none →
      AdminRouter.adminReindex adapters (.num q) (.str s) fb = .invalidFromBlock) ∧
    (∀ a s t2 j, adapters q = some a → a.supported = true →
      AdminRouter.normalizeAddress s = some t2 →
      fb ≠ .absent → fb ≠ .nullVal → AdminRouter.fromBlockIsBlank fb = false →
      AdminRouter.jsBigIntOfField fb = some j → j < 0 →
      AdminRouter.adminReindex adapters (.num q) (.str s) fb = .invalidFromBlock) ∧
    (AdminRouter.adminReindex adapters (.num q) tok fb = .accepted q t i ↔
      ((∃ a, adapters q = some a ∧ a.supported = true) ∧
       (∃ s, tok = .str s ∧ AdminRouter.normalizeAddress s = some t) ∧
       (((fb = .absent ∨ fb = .nullVal ∨ AdminRouter.fromBlockIsBlank fb = true) ∧
          i = none) ∨
        (fb ≠ .absent ∧ fb ≠ .nullVal ∧ AdminRouter.fromBlockIsBlank fb = false ∧
          ∃ j, AdminRouter.jsBigIntOfField fb = some j ∧ 0 ≤ j ∧ i = some j)))) := by
  refine ⟨rfl, ?_, ?_, ?_, ?_, ?_, ?_, ?_⟩
  · intro h
    simp [AdminRouter.adminReindex, h]
  · intro a ha hs
    simp [AdminRouter.adminReindex, ha, hs]
  · intro a ha hs
    simp [AdminRouter.adminReindex, ha, hs]
  · intro a s ha hs hn
    by_cases hse : s = ("")
    · subst hse
      simp [AdminRouter.adminReindex, ha, hs]
    · simp [AdminRouter.adminReindex, ha, hs, hse, hn]
  · intro a s t2 ha hs hn hna hnn hblank hbi
    have hse : ¬ s = ("") := by
      intro h
      subst h
      rw [AdminRouter.normalizeAddress_empty] at hn
      exact Option.noConfusion hn
    cases fb with
    | absent => exact absurd rfl hna
    | nullVal => exact absurd rfl hnn
    | intNum m => simp [AdminRouter.jsBigIntOfField] at hbi
    | nonIntNum =>
      simp [AdminRouter.adminReindex, ha, hs, hse, hn, hblank, hbi]
    | str u =>
      simp [AdminRouter.adminReindex, ha, hs, hse, hn, hblank, hbi]
  · intro a s t2 j ha hs hn hna hnn hblank hbi hj
    have hse : ¬ s = ("") := by
      intro h
      subst h
      rw [AdminRouter.normalizeAddress_empty] at hn
      exact Option.noConfusion hn
    cases fb with
    | absent => exact absurd rfl hna
    | nullVal => exact absurd rfl hnn
    | nonIntNum => simp [AdminRouter.jsBigIntOfField] at hbi
    | intNum m =>
      simp only [AdminRouter.jsBigIntOfField, Option.some.injEq] at hbi
      subst hbi
      simp [AdminRouter.adminReindex, AdminRouter.jsBigIntOfField, ha, hs, hse, hn,
        hblank, hj]
    | str u =>
      simp [AdminRouter.adminReindex, ha, hs, hse, hn, hblank, hbi, hj]
  · cases ha : adapters q with
    | none => simp [AdminRouter.adminReindex, ha]
    | some a =>
      cases hsup : a.supported with
      | false => simp [AdminRouter.adminReindex, ha, hsup]
      | true =>
        cases tok with
        | notString => simp [AdminRouter.adminReindex, ha, hsup]
        | str s =>
          by_cases hse : s = ("")
          · subst hse
            simp [AdminRouter.adminReindex, ha, hsup, AdminRouter.normalizeAddress_empty]
          · cases hn : AdminRouter.normalizeAddress s with
            | none => simp [AdminRouter.adminReindex, ha, hsup, hse, hn]
            | some t2 =>
              cases fb with
              | absent =>
                simp [AdminRouter.adminReindex, ha, hsup, hse, hn,
                  AdminRouter.fromBlockIsBlank]
                tauto
              | nullVal =>
                simp [AdminRouter.adminReindex, ha, hsup, hse, hn,
                  AdminRouter.fromBlockIsBlank]
                tauto
              | nonIntNum =>
                simp [AdminRouter.adminReindex, ha, hsup, hse, hn,
                  AdminRouter.fromBlockIsBlank, AdminRouter.jsBigIntOfField]
              | intNum m =>
                by_cases hm : m < 0
                · simp [AdminRouter.adminReindex, ha, hsup, hse, hn,
                    AdminRouter.fromBlockIsBlank, AdminRouter.jsBigIntOfField, hm]
                · simp [AdminRouter.adminReindex, ha, hsup, hse, hn,
                    AdminRouter.fromBlockIsBlank, AdminRouter.jsBigIntOfField, hm]
                  intro ht
                  constructor
                  · rintro rfl
                    exact ⟨by omega, rfl⟩
                  · rintro ⟨h0, rfl⟩
                    rfl
              | str u =>
                by_cases hblank : JsModel.trimWs u.data = []
                · simp [AdminRouter.adminReindex, ha, hsup, hse, hn,
                    AdminRouter.fromBlockIsBlank, hblank]
                  tauto
                · cases hbi : JsModel.jsBigIntOfString u with
                  | none =>
                    simp [AdminRouter.adminReindex, ha, hsup, hse, hn,
                      AdminRouter.fromBlockIsBlank, AdminRouter.jsBigIntOfField, hblank, hbi]
                  | some j =>
                    by_cases hj : j < 0
                    · simp [AdminRouter.adminReindex, ha, hsup, hse, hn,
                        AdminRouter.fromBlockIsBlank, AdminRouter.jsBigIntOfField,
                        hblank, hbi, hj]
                    · simp [AdminRouter.adminReindex, ha, hsup, hse, hn,
                        AdminRouter.fromBlockIsBlank, AdminRouter.jsBigIntOfField,
                        hblank, hbi, hj]
                      intro ht
                      constructor
                      · rintro rfl
                        exact ⟨by omega, rfl⟩
                      · rintro ⟨h0, rfl⟩
                        rfl

/-- Witness for the amended C8: every rejection branch exercised
concretely against the one-chain catalogue — a non-numeric chainId, an
unknown chain 5, a non-string token, a non-hex token, a `BigInt`-rejected
`fromBlock` "xyz", and a negative `fromBlock` "-5". -/
theorem claimC8_witness :
    AdminRouter.adminReindex AdminRouter.sampleAdapters .notNumber
      (.str ("0xAAaaaaaaaaaaaaaaaaaaaaaaaaaaaaaaaaaaaaaa")) .absent = .invalidChain ∧
    AdminRouter.adminReindex AdminRouter.sampleAdapters (.num 5)
      (.str ("0xAAaaaaaaaaaaaaaaaaaaaaaaaaaaaaaaaaaaaaaa")) .absent = .unsupportedChain ∧
    AdminRouter.adminReindex AdminRouter.sampleAdapters (.num 137) .notString .absent =
      .invalidToken ∧
    AdminRouter.adminReindex AdminRouter.sampleAdapters (.num 137) (.str ("bad")) .absent =
      .invalidToken ∧
    AdminRouter.adminReindex AdminRouter.sampleAdapters (.num 137)
      (.str ("0xAAaaaaaaaaaaaaaaaaaaaaaaaaaaaaaaaaaaaaaa")) (.str ("xyz")) =
      .invalidFromBlock ∧
    AdminRouter.adminReindex AdminRouter.sampleAdapters (.num 137)
      (.str ("0xAAaaaaaaaaaaaaaaaaaaaaaaaaaaaaaaaaaaaaaa")) (.str ("-5")) =
      .invalidFromBlock :=
  ⟨(claimC8_theorem AdminRouter.sampleAdapters 5
      (.str ("0xAAaaaaaaaaaaaaaaaaaaaaaaaaaaaaaaaaaaaaaa")) .absent ("x") none).1,
   (claimC8_theorem AdminRouter.sampleAdapters 5
      (.str ("0xAAaaaaaaaaaaaaaaaaaaaaaaaaaaaaaaaaaaaaaa")) .absent ("x") none).2.1
     (by decide),
   (claimC8_theorem AdminRouter.sampleAdapters 137
      (.str ("0xAAaaaaaaaaaaaaaaaaaaaaaaaaaaaaaaaaaaaaaa")) .absent ("x") none).2.2.2.1
     ⟨true⟩ (by decide) rfl,
   (claimC8_theorem AdminRouter.sampleAdapters 137 (.str ("bad")) .absent
      ("x") none).2.2.2.2.1 ⟨true⟩ ("bad") (by decide) rfl (by decide),
   (claimC8_theorem AdminRouter.sampleAdapters 137
      (.str ("0xAAaaaaaaaaaaaaaaaaaaaaaaaaaaaaaaaaaaaaaa")) (.str ("xyz"))
      ("x") none).2.2.2.2.2.1
     ⟨true⟩ ("0xAAaaaaaaaaaaaaaaaaaaaaaaaaaaaaaaaaaaaaaa")
     ("0xaaaaaaaaaaaaaaaaaaaaaaaaaaaaaaaaaaaaaaaa")
     (by decide) rfl (by decide) (by decide) (by decide) (by decide) (by decide),
   (claimC8_theorem AdminRouter.sampleAdapters 137
      (.str ("0xAAaaaaaaaaaaaaaaaaaaaaaaaaaaaaaaaaaaaaaa")) (.str ("-5"))
      ("x") none).2.2.2.2.2.2.1
     ⟨true⟩ ("0xAAaaaaaaaaaaaaaaaaaaaaaaaaaaaaaaaaaaaaaa")
     ("0xaaaaaaaaaaaaaaaaaaaaaaaaaaaaaaaaaaaaaaaa") (-5)
     (by decide) rfl (by decide) (by decide) (by decide) (by decide) (by decide)
     (by decide)⟩
